import Mathlib

/-!
Session and consent reconciliation engine of `public/app.js`.

A shallow embedding of the client script: the endpoint resolver, the session
store, the consent gate, the survey scheduler and the handlers that drive them.

Modelling conventions.

* `localStorage` is an association list of string keys and string values.
* A value that is a string or `null`/`undefined` in the script is an
  `Option String`; `truthy` is the JavaScript truthiness of such a value.
* Every handler but `declineConsent` is run to completion: the responses of the
  requests it awaits are arguments of the handler. `declineConsent` is two steps,
  before and after its `await`, and other events may come between them.
* The document is the Presentation Surface of the specification: every element
  the script looks up by id exists; `Dom` records the properties the script
  writes. Text labels and styling that no decision depends on are left out.
* `calls` is the trace of the calls the script makes (requests, timers, alerts
  and the initialization functions), oldest first.
* The radio buttons of the survey are read only by `submitSurvey`: the selection it
  finds is an argument of each run. A retry is a further run of `submitSurvey`,
  started by the timer the run before has set, with its own arguments.
* A number of the script is a double, given by its value, a rational. Every arithmetic
  operation is the exact operation followed by `toDouble`, the rounding to the
  nearest double. Time values are integers, exact as doubles.
-/

namespace GriefCompanion

/-! ## JavaScript helpers -/

/-- Truthiness of a value that is a string or null: a non-empty string. -/
def truthy : Option String → Bool
  | some s => s != ""
  | none => false

/-- The operator `a || b` on values that are a string or null. -/
def jsOr (a b : Option String) : Option String :=
  if truthy a then a else b

/-- White space and line terminators removed by `String.prototype.trim`. -/
def isJsWhitespace (c : Char) : Bool :=
  let n := c.toNat
  n == 0x09 || n == 0x0A || n == 0x0B || n == 0x0C || n == 0x0D || n == 0x20 ||
  n == 0xA0 || n == 0x1680 || (0x2000 ≤ n && n ≤ 0x200A) || n == 0x2028 ||
  n == 0x2029 || n == 0x202F || n == 0x205F || n == 0x3000 || n == 0xFEFF

/-- The method `trim` of a string. -/
def jsTrim (s : String) : String :=
  String.mk ((s.data.dropWhile isJsWhitespace).reverse.dropWhile isJsWhitespace).reverse

/-- The property `length` of a string: its number of UTF-16 code units. -/
def jsLength (s : String) : Nat :=
  s.data.foldl (fun n c => n + (if 0x10000 ≤ c.toNat then 2 else 1)) 0

/-- The integer nearest to `y`, the even one of the two when `y` lies half way. -/
def roundHalfEven (y : ℚ) : Int :=
  let f := Int.floor y
  let d := y - f
  if d < 1 / 2 then f
  else if 1 / 2 < d then f + 1
  else if f % 2 = 0 then f
  else f + 1

/-- The double nearest to `q`, the result every arithmetic operation of the script
rounds to (IEEE 754 binary64, round to nearest, ties to even): `q` is rounded to a
multiple of 2^(e-52), where 2^e is the largest power of 2 not above the magnitude of
`q`. Overflow and subnormal numbers are left out; no operation modelled here reaches
them. -/
def toDouble (q : ℚ) : ℚ :=
  if q = 0 then 0
  else
    let e : Int := Int.log 2 |q|
    let ulp : ℚ := 2 ^ (e - 52)
    roundHalfEven (q / ulp) * ulp

/-! ## Durable local storage -/

/-- The content of `localStorage`. -/
abbrev Storage := List (String × String)

/-- The call `localStorage.getItem(k)`: the stored string, or null. -/
def getItem (st : Storage) (k : String) : Option String :=
  List.lookup k st

/-- The call `localStorage.removeItem(k)`. -/
def removeItem (st : Storage) (k : String) : Storage :=
  st.filter (fun p => p.1 != k)

/-- The call `localStorage.setItem(k, v)`: replaces the value stored under `k`. -/
def setItem (st : Storage) (k v : String) : Storage :=
  (k, v) :: removeItem st k

/-! ## Environment of the page -/

/-- What the browser supplies to the script and does not change while the page lives. -/
structure Env where
  /-- The global `window.BACKEND_AUTH_API_INJECTED`, when defined. -/
  injected : Option String
  /-- The result of `new URLSearchParams(window.location.search).get('api')`. -/
  apiParam : Option String
  /-- The value of `window.location.hostname`. -/
  hostname : String
  /-- The built-in `encodeURIComponent`. -/
  encodeURIComponent : String → String
  /-- The time value of `new Date(text)` in milliseconds; `none` for an invalid date. -/
  dateParse : String → Option Int

/-- What the browser supplies during one run of a handler. -/
structure Tick where
  /-- The result of `new Date().toISOString()`. -/
  iso : String
  /-- The time value of `new Date()` in milliseconds. -/
  ms : Int
  /-- The result of `Math.random()`. -/
  random : ℚ

/-! ## Endpoint resolver -/

/-- The function `getBackendApiUrl` (lines 9-45). -/
def getBackendApiUrl (env : Env) (ls : Storage) : String :=
  if truthy env.injected then env.injected.getD ""
  else
    let paramApi := env.apiParam
    if truthy paramApi then paramApi.getD ""
    else
      let savedApi := getItem ls "customBackendUrl"
      if truthy savedApi then savedApi.getD ""
      else
        let localhost := "http://localhost:7860"
        let cloudService := "https://1332551170-4tuhxe4fzv.ap-guangzhou.tencentscf.com/api"
        if env.hostname == "localhost" || env.hostname == "127.0.0.1" ||
            env.hostname == "0.0.0.0" then localhost
        else cloudService

/-! ## Application state -/

/-- The object `currentUser`. -/
structure User where
  id : String
  name : String
  deriving DecidableEq, Repr

/-- A callback handed to `setTimeout`. -/
inductive Timer where
  | showSurvey
  | submitSurvey (retryCount : Nat)
  deriving DecidableEq, Repr

/-- A call made by the script, as recorded in the trace. -/
inductive Call where
  | checkAndShowSurvey
  | setupEventListeners
  | initializeSurvey
  | loadUserStatistics
  | loadMoodHistory
  | fetch (method url : String)
  | setTimeout (callback : Timer) (delay : Nat)
  | alert (message : String)
  | addMessage (role content : String)
  deriving DecidableEq, Repr

/-- Whether the document is still the application. -/
inductive PageStatus where
  | live
  /-- After `window.location.replace('about:blank')`. -/
  | replaced
  /-- After `document.body.innerHTML` was overwritten with the closing notice. -/
  | bodyCleared
  deriving DecidableEq, Repr

/-- The properties of the document the script reads and writes. -/
structure Dom where
  loginPageDisplay : String
  appPageDisplay : String
  appPagePointerEvents : String
  appPageOpacity : String
  consentModalActive : Bool
  surveyModalActive : Bool
  apiSettingsModalActive : Bool
  userNameDisplay : String
  usernameError : String
  passwordError : String
  confirmError : String
  authError : String
  authUsername : String
  authPassword : String
  authConfirm : String
  customApiUrl : String
  page : PageStatus
  deriving DecidableEq, Repr

/-- The module-level variables of the script, the storage, the document and the trace. -/
structure AppState where
  localStorage : Storage
  currentUser : Option User
  isLoginMode : Bool
  BACKEND_AUTH_API : String
  BACKEND_STATS_API : String
  BACKEND_HISTORY_API : String
  BACKEND_API : String
  dom : Dom
  calls : List Call
  deriving DecidableEq, Repr

/-- Appends a call to the trace. -/
def record (c : Call) (s : AppState) : AppState :=
  { s with calls := s.calls ++ [c] }

/-- The top-level statements of the script (lines 48-57), run when the page loads. -/
def initialState (env : Env) (ls : Storage) (dom : Dom) : AppState :=
  let base := getBackendApiUrl env ls
  { localStorage := ls
    currentUser := none
    isLoginMode := true
    BACKEND_AUTH_API := base
    BACKEND_STATS_API := base ++ "/user/statistics"
    BACKEND_HISTORY_API := base ++ "/user/emotion-history"
    BACKEND_API := base ++ "/chat"
    dom := dom
    calls := [] }

/-! ## Survey scheduler and the initialization sequence -/

/-- The function `checkAndShowSurvey` (lines 438-462). The product `1000 * 60 * 60 * 24`
is exact in doubles. -/
def checkAndShowSurvey (env : Env) (tick : Tick) (s0 : AppState) : AppState :=
  let s := record Call.checkAndShowSurvey s0
  let lastSurveyDate := getItem s.localStorage "last_survey_date"
  if !truthy lastSurveyDate then
    if getItem s.localStorage "consent_agreed" == some "true" then
      record (Call.setTimeout Timer.showSurvey 3000) s
    else s
  else
    match env.dateParse (lastSurveyDate.getD "") with
    | none => s -- the difference is NaN and every comparison with NaN is false
    | some lastDate =>
      let elapsed : ℚ := toDouble ((tick.ms : ℚ) - (lastDate : ℚ))
      let daysDiff : Int := Int.floor (toDouble (elapsed / (1000 * 60 * 60 * 24)))
      let surveyInterval : ℚ := toDouble (5 + toDouble (tick.random * 2))
      if (daysDiff : ℚ) ≥ surveyInterval then
        record (Call.setTimeout Timer.showSurvey 2000) s
      else s

/-- The functions `setupEventListeners`, `initializeSurvey`, `loadUserStatistics` and
`loadMoodHistory` are view glue: only their invocation is recorded. -/
def setupEventListeners (s : AppState) : AppState := record Call.setupEventListeners s

/-- See `setupEventListeners`. -/
def initializeSurvey (s : AppState) : AppState := record Call.initializeSurvey s

/-- See `setupEventListeners`. -/
def loadUserStatistics (s : AppState) : AppState := record Call.loadUserStatistics s

/-- See `setupEventListeners`. -/
def loadMoodHistory (s : AppState) : AppState := record Call.loadMoodHistory s

/-- The five calls that end both `initApp` (lines 322-327) and `acceptConsent`
(lines 390-394). -/
def continueInit (env : Env) (tick : Tick) (s : AppState) : AppState :=
  loadMoodHistory (loadUserStatistics (initializeSurvey (setupEventListeners
    (checkAndShowSurvey env tick s))))

/-- The expression `(currentUser && currentUser.id) || localStorage.getItem('userId') || null`
of `initApp`, `acceptConsent` and `declineConsent`. -/
def sessionUserId (s : AppState) : Option String :=
  jsOr (jsOr (s.currentUser.map (fun u => u.id)) (getItem s.localStorage "userId")) none

/-- The expression `localStorage.getItem('userId') || (currentUser && currentUser.id) || null`
of `showApp` and `submitSurvey`. -/
def storedUserId (s : AppState) : Option String :=
  jsOr (jsOr (getItem s.localStorage "userId") (s.currentUser.map (fun u => u.id))) none

/-- The consent key of `initApp`, `acceptConsent` and `declineConsent`:
`userId ? ("consent_agreed_" + userId) : 'consent_agreed'`. -/
def consentKeyOf (userId : Option String) : String :=
  if truthy userId then "consent_agreed_" ++ userId.getD "" else "consent_agreed"

/-- The function `initApp` (lines 281-328). -/
def initApp (env : Env) (tick : Tick) (s : AppState) : AppState :=
  let userId := sessionUserId s
  let consentKey := consentKeyOf userId
  let consentVal := getItem s.localStorage consentKey
  if truthy userId then
    if !truthy consentVal || consentVal == some "false" then
      { s with dom := { s.dom with
          consentModalActive := true
          appPagePointerEvents := "none"
          appPageOpacity := "0.5" } }
    else
      continueInit env tick { s with dom := { s.dom with
          consentModalActive := false
          appPagePointerEvents := "auto"
          appPageOpacity := "1" } }
  else
    continueInit env tick s

/-! ## Consent reconciler -/

/-- The field `consent` of the body of the authoritative read, as the script tests it:
`=== true`, `=== false`, or anything else (null, missing, another type). -/
inductive ConsentField where
  | boolean (b : Bool)
  | other
  deriving DecidableEq, Repr

/-- The outcome of the request `GET /consent/:userId` awaited by `showApp`. -/
inductive ConsentGet where
  /-- The promise of `fetch` rejects. -/
  | transportError
  /-- A response whose `ok` is false. -/
  | notOk (status : Nat)
  /-- A response whose body cannot be read as an object. -/
  | badBody
  /-- A response whose `ok` is true, with the fields `consent` and `date` of its body. -/
  | ok (consent : ConsentField) (date : Option String)
  deriving DecidableEq, Repr

/-- The test `hostname === 'localhost' || hostname === '127.0.0.1'` that sends the consent
and survey requests to the stand-alone API server. -/
def usesLocalApi (env : Env) : Bool :=
  env.hostname == "localhost" || env.hostname == "127.0.0.1"

/-- The request URL of the consent read in `showApp` (lines 192-196). -/
def consentGetUrl (env : Env) (s : AppState) (uid : String) : String :=
  let localApiUrl := "http://localhost:7861/api/consent/" ++ env.encodeURIComponent uid
  let apiUrl := s.BACKEND_AUTH_API ++ "/consent/" ++ env.encodeURIComponent uid
  if usesLocalApi env then localApiUrl else apiUrl

/-- The function `showApp` (lines 185-229). -/
def showApp (env : Env) (tick : Tick) (resp : ConsentGet) (s : AppState) : AppState :=
  let userId := storedUserId s
  let s1 :=
    if truthy userId then
      let uid := userId.getD ""
      let sf := record (Call.fetch "GET" (consentGetUrl env s uid)) s
      match resp with
      | ConsentGet.ok (ConsentField.boolean b) date =>
        let consentKey := "consent_agreed_" ++ uid
        let stamp := (jsOr date (some tick.iso)).getD tick.iso
        if b then
          { sf with localStorage :=
              setItem (setItem sf.localStorage consentKey "true") (consentKey ++ "_date") stamp }
        else
          { sf with localStorage :=
              setItem (setItem sf.localStorage consentKey "false") (consentKey ++ "_date") stamp }
      | _ => sf
    else s
  let s2 := { s1 with dom := { s1.dom with loginPageDisplay := "none", appPageDisplay := "block" } }
  match s2.currentUser with
  | none => s2 -- reading `currentUser.name` throws: `initApp` is not reached
  | some u => initApp env tick { s2 with dom := { s2.dom with userNameDisplay := u.name } }

/-- The outcome of a best-effort request `POST /consent`. -/
inductive PostOutcome where
  | transportError
  | status (code : Nat)
  deriving DecidableEq, Repr

/-- The request URL of the consent write in `acceptConsent` (lines 369-373) and
`declineConsent` (lines 407-411). -/
def consentPostUrl (env : Env) (s : AppState) : String :=
  let localApiUrl := "http://localhost:7861/api/consent"
  let apiUrl := s.BACKEND_AUTH_API ++ "/consent"
  if usesLocalApi env then localApiUrl else apiUrl

/-- The function `acceptConsent` (lines 353-395). The request is issued, when a user id
exists, before the initialization calls; its outcome `post` changes nothing. -/
def acceptConsent (env : Env) (tick : Tick) (_post : PostOutcome) (s : AppState) : AppState :=
  let userId := sessionUserId s
  let consentKey := consentKeyOf userId
  let s1 := { s with
    localStorage := setItem (setItem s.localStorage consentKey "true") (consentKey ++ "_date") tick.iso
    dom := { s.dom with
      consentModalActive := false
      appPagePointerEvents := "auto"
      appPageOpacity := "1" } }
  let userId2 := sessionUserId s1
  let s2 := if truthy userId2 then record (Call.fetch "POST" (consentPostUrl env s1)) s1 else s1
  continueInit env tick s2

/-- The finally block of `declineConsent` (lines 423-433). `replaceThrows` tells whether
`window.location.replace('about:blank')` throws, which selects the fallback. -/
def declineConsentFinally (replaceThrows : Bool) (s : AppState) : AppState :=
  { s with dom := { s.dom with
      page := if replaceThrows then PageStatus.bodyCleared else PageStatus.replaced } }

/-- The function `declineConsent` (lines 398-435) up to the point where it awaits its
request (line 414): the alert, the write of the decision and the start of the request.
The page is live and the consent prompt is as it was until the request settles. When no
user id is found nothing is awaited and the finally block runs at once. -/
def declineConsent (env : Env) (replaceThrows : Bool) (s : AppState) : AppState :=
  let s0 := record (Call.alert "您已拒绝数据收集。页面将关闭以保护您的选择。") s
  let userId := sessionUserId s0
  let consentKey := consentKeyOf userId
  let s1 := { s0 with localStorage := setItem s0.localStorage consentKey "false" }
  if truthy userId then record (Call.fetch "POST" (consentPostUrl env s1)) s1
  else declineConsentFinally replaceThrows s1

/-- The rest of `declineConsent` (lines 419-433), run when the awaited request settles:
whatever its outcome `post`, the finally block tears the page down. -/
def declineConsentSettled (_post : PostOutcome) (replaceThrows : Bool) (s : AppState) :
    AppState :=
  declineConsentFinally replaceThrows s

/-! ## Session store and auth flow -/

/-- The function `clearAuthErrors` (lines 178-183). -/
def clearAuthErrors (s : AppState) : AppState :=
  { s with dom := { s.dom with
      usernameError := "", passwordError := "", confirmError := "", authError := "" } }

/-- The elements `showAuthError` is called on. -/
inductive ErrorField where
  | usernameError
  | passwordError
  | confirmError
  | authError
  deriving DecidableEq, Repr

/-- The function `showAuthError` (lines 170-176). -/
def showAuthError (f : ErrorField) (message : String) (s : AppState) : AppState :=
  match f with
  | ErrorField.usernameError => { s with dom := { s.dom with usernameError := message } }
  | ErrorField.passwordError => { s with dom := { s.dom with passwordError := message } }
  | ErrorField.confirmError => { s with dom := { s.dom with confirmError := message } }
  | ErrorField.authError => { s with dom := { s.dom with authError := message } }

/-- The outcome of the request `POST /login` or `POST /register`. The fields of a
successful body are strings, as the fields of a Session are. -/
inductive AuthResponse where
  /-- The promise of `fetch` rejects, or the body is not JSON. -/
  | transportError
  /-- A body whose `success` is falsy, with its field `error`. -/
  | failure (error : Option String)
  /-- A body whose `success` is truthy. -/
  | success (userId userName token : String)
  deriving DecidableEq, Repr

/-- The handling of the response, the same in both branches of `handleAuthSubmit` but for
the default message (lines 86-104 and 121-139). -/
def handleAuthResponse (env : Env) (tick : Tick) (fallback : String) (resp : AuthResponse)
    (consent : ConsentGet) (s : AppState) : AppState :=
  match resp with
  | AuthResponse.success userId userName token =>
    let ls := setItem (setItem (setItem s.localStorage "token" token) "userId" userId)
      "userName" userName
    showApp env tick consent
      { s with localStorage := ls, currentUser := some { id := userId, name := userName } }
  | AuthResponse.failure error =>
    showAuthError ErrorField.authError ((jsOr error (some fallback)).getD fallback) s
  | AuthResponse.transportError =>
    showAuthError ErrorField.authError
      ("网络连接失败，请检查后端是否运行：\n" ++ s.BACKEND_AUTH_API) s

/-- The function `handleAuthSubmit` (lines 60-141). -/
def handleAuthSubmit (env : Env) (tick : Tick) (resp : AuthResponse) (consent : ConsentGet)
    (s0 : AppState) : AppState :=
  let s := clearAuthErrors s0
  let username := jsTrim s.dom.authUsername
  let password := s.dom.authPassword
  if jsLength username < 3 then
    showAuthError ErrorField.usernameError "用户名至少3个字符" s
  else if jsLength password < 6 then
    showAuthError ErrorField.passwordError "密码至少6个字符" s
  else if s.isLoginMode then
    handleAuthResponse env tick "登录失败" resp consent
      (record (Call.fetch "POST" (s.BACKEND_AUTH_API ++ "/login")) s)
  else
    let confirmPassword := s.dom.authConfirm
    if password != confirmPassword then
      showAuthError ErrorField.confirmError "两次密码不一致" s
    else
      handleAuthResponse env tick "注册失败" resp consent
        (record (Call.fetch "POST" (s.BACKEND_AUTH_API ++ "/register")) s)

/-- The function `toggleAuthMode` (lines 143-168), without the text labels. -/
def toggleAuthMode (s : AppState) : AppState :=
  clearAuthErrors { s with isLoginMode := !s.isLoginMode }

/-- The function `logout` (lines 231-247); `confirmed` is the answer to `confirm`. -/
def logout (confirmed : Bool) (s : AppState) : AppState :=
  if confirmed then
    let ls := removeItem (removeItem (removeItem s.localStorage "token") "userId") "userName"
    let s1 := { s with
      localStorage := ls
      currentUser := none
      dom := { s.dom with
        loginPageDisplay := "block"
        appPageDisplay := "none"
        authUsername := ""
        authPassword := ""
        authConfirm := "" } }
    toggleAuthMode { clearAuthErrors s1 with isLoginMode := true }
  else s

/-- The listener of the event `load` of the window (lines 250-269): the startup restore. -/
def windowLoad (env : Env) (tick : Tick) (consent : ConsentGet) (s : AppState) : AppState :=
  let token := getItem s.localStorage "token"
  let userId := getItem s.localStorage "userId"
  let userName := getItem s.localStorage "userName"
  if truthy token && truthy userId && truthy userName then
    showApp env tick consent
      { s with currentUser := some { id := userId.getD "", name := userName.getD "" } }
  else
    { s with dom := { s.dom with loginPageDisplay := "block", appPageDisplay := "none" } }

/-- The function `saveApiSettings` (lines 670-690). -/
def saveApiSettings (s : AppState) : AppState :=
  let customUrl := jsTrim s.dom.customApiUrl
  if customUrl == "" then
    record (Call.alert "请输入 API 地址") s
  else
    let s1 := { s with
      localStorage := setItem s.localStorage "customBackendUrl" customUrl
      BACKEND_AUTH_API := customUrl
      BACKEND_STATS_API := customUrl ++ "/user/statistics"
      BACKEND_HISTORY_API := customUrl ++ "/user/emotion-history" }
    let s2 := record
      (Call.alert ("✅ API 地址已更新！\n\n" ++ customUrl ++ "\n\n请刷新页面以应用新配置")) s1
    { s2 with dom := { s2.dom with apiSettingsModalActive := false } }

/-! ## Survey submission -/

/-- An entry of the constant `surveyQuestions` (lines 272-278). -/
structure Question where
  id : Nat
  text : String
  options : List String
  deriving DecidableEq, Repr

/-- The constant `surveyQuestions` (lines 272-278). -/
def surveyQuestions : List Question :=
  [ { id := 1, text := "在过去的一周内，您是否感到悲伤或沮丧？",
      options := ["完全没有", "偶尔", "经常", "几乎总是"] },
    { id := 2, text := "您是否能从日常活动中获得快乐感？",
      options := ["能", "有时能", "很少能", "无法获得"] },
    { id := 3, text := "您是否感到生活失去了目标或意义？",
      options := ["完全没有", "有所感受", "相当程度上", "非常同意"] },
    { id := 4, text := "您对未来是否有希望？",
      options := ["很有希望", "有所希望", "希望不大", "完全没有希望"] },
    { id := 5, text := "您是否经历过睡眠困难或过度睡眠？",
      options := ["没有", "有时", "经常", "严重困扰"] } ]

/-- The outcome of the request `POST /survey` awaited by `submitSurvey`. -/
inductive SurveyResponse where
  /-- The promise of `fetch` rejects with an error that has this `message`. -/
  | transportError (message : String)
  /-- A response with this status arrives. `jsonError` is the message of the error
  `response.json()` rejects with, and none when the body parses as JSON. -/
  | response (status : Nat) (jsonError : Option String)
  deriving DecidableEq, Repr

/-- What the browser supplies during one run of `submitSurvey`. The radio buttons of the
survey are created by `initializeSurvey` and read only here: `checked` maps the id of a
question to the value of its checked radio button, as `document.querySelector` finds it. -/
structure SurveyAttempt where
  tick : Tick
  checked : List (Nat × Nat)
  response : SurveyResponse

/-- The flag `isComplete` of `submitSurvey` (lines 477-490): every question of
`surveyQuestions` has a checked radio button. -/
def SurveyAttempt.isComplete (a : SurveyAttempt) : Bool :=
  surveyQuestions.all (fun q => (a.checked.lookup q.id).isSome)

/-- The method `includes` of a string. -/
def jsIncludes (s sub : String) : Bool :=
  decide (sub.data <:+: s.data)

/-- The request URL of `submitSurvey` (lines 505-515). -/
def surveyUrl (env : Env) (s : AppState) : String :=
  let surveyApi := s.BACKEND_AUTH_API ++ "/survey"
  let localApiUrl := "http://localhost:7861/api/survey"
  if usesLocalApi env then localApiUrl else surveyApi

/-- The text of the alert for an error status (line 551). -/
def surveyStatusMessage (status : Nat) : String :=
  "问卷提交失败（错误 " ++ toString status ++
    "）\n\n可能的原因：\n1. 后端服务未启动\n2. 网络连接不稳定\n3. 后端服务器离线\n\n请检查后端是否运行或尝试稍后重试"

/-- The text `errorMsg` built in the catch block of `submitSurvey` (lines 558-569). -/
def surveyErrorMessage (s : AppState) (message : String) : String :=
  let errorMsg := "网络连接失败\n\n"
  if jsIncludes message "Failed to fetch" then
    errorMsg ++ "原因：无法连接到后端服务器\n\n" ++ "解决方案：\n" ++ "1. 确保后端服务已启动\n" ++
      "   本地运行：python run_app.py\n" ++ "2. 检查网络连接\n" ++ "3. 确保防火墙未阻止连接\n\n" ++
      "后端地址：" ++ s.BACKEND_AUTH_API
  else
    errorMsg ++ message

/-- The catch block of `submitSurvey` (lines 554-580), entered with an error that has
this `message`. -/
def surveyCatch (message : String) (retryCount : Nat) (s : AppState) : AppState :=
  let errorMsg := surveyErrorMessage s message
  if retryCount < 2 then
    record (Call.setTimeout (Timer.submitSurvey (retryCount + 1)) 2000) s
  else
    record (Call.alert errorMsg) s

/-- The function `submitSurvey` (lines 475-581). -/
def submitSurvey (env : Env) (a : SurveyAttempt) (retryCount : Nat) (s : AppState) :
    AppState :=
  let isComplete := a.isComplete
  if !isComplete then
    record (Call.alert "请完成所有问题再提交") s
  else
    let userId := storedUserId s
    if !truthy userId then
      record (Call.alert "未检测到登录用户，请先登录再提交问卷") s
    else
      let s1 := record (Call.fetch "POST" (surveyUrl env s)) s
      match a.response with
      | SurveyResponse.response status jsonError =>
        if 200 ≤ status && status ≤ 299 then
          match jsonError with
          | none =>
            let s2 := { s1 with
              localStorage := setItem s1.localStorage "last_survey_date" a.tick.iso
              dom := { s1.dom with surveyModalActive := false } }
            record (Call.addMessage "bot"
              "✅ 感谢您完成问卷！您的反馈已被记录，这对我们了解您的心理状态非常帮助。") s2
          | some message => surveyCatch message retryCount s1
        else if (status == 503 || status == 502 || status == 504) && retryCount < 3 then
          record (Call.setTimeout (Timer.submitSurvey (retryCount + 1)) 3000) s1
        else
          record (Call.alert (surveyStatusMessage status)) s1
      | SurveyResponse.transportError message => surveyCatch message retryCount s1

/-! ## The session as a sequence of events -/

/-- An event the browser delivers to the page, with what the environment supplies
while its handler runs. The event `declineConsentSettled` is the settling of the request
that `declineConsent` awaits; any other event may come before it. -/
inductive Event where
  | load (tick : Tick) (consent : ConsentGet)
  | typeUsername (value : String)
  | typePassword (value : String)
  | typeConfirm (value : String)
  | typeCustomApiUrl (value : String)
  | authSubmit (tick : Tick) (resp : AuthResponse) (consent : ConsentGet)
  | toggleAuthMode
  | logout (confirmed : Bool)
  | acceptConsent (tick : Tick) (post : PostOutcome)
  | declineConsent (replaceThrows : Bool)
  | declineConsentSettled (post : PostOutcome) (replaceThrows : Bool)
  | saveApiSettings
  | submitSurvey (attempt : SurveyAttempt) (retryCount : Nat)

/-- One event of the session. The browser runs a handler of the page only while the
document is the application: after the navigation to `about:blank` the script is
gone, and after the body was overwritten no element is left to raise an event. -/
def dispatch (env : Env) (ev : Event) (s : AppState) : AppState :=
  if s.dom.page != PageStatus.live then s
  else
    match ev with
    | Event.load tick consent => windowLoad env tick consent s
    | Event.typeUsername v => { s with dom := { s.dom with authUsername := v } }
    | Event.typePassword v => { s with dom := { s.dom with authPassword := v } }
    | Event.typeConfirm v => { s with dom := { s.dom with authConfirm := v } }
    | Event.typeCustomApiUrl v => { s with dom := { s.dom with customApiUrl := v } }
    | Event.authSubmit tick resp consent => handleAuthSubmit env tick resp consent s
    | Event.toggleAuthMode => toggleAuthMode s
    | Event.logout confirmed => logout confirmed s
    | Event.acceptConsent tick post => acceptConsent env tick post s
    | Event.declineConsent replaceThrows => declineConsent env replaceThrows s
    | Event.declineConsentSettled post replaceThrows =>
      declineConsentSettled post replaceThrows s
    | Event.saveApiSettings => saveApiSettings s
    | Event.submitSurvey attempt retryCount => submitSurvey env attempt retryCount s

/-- The session after a sequence of events, oldest first. -/
def runEvents (env : Env) : List Event → AppState → AppState
  | [], s => s
  | ev :: rest, s => runEvents env rest (dispatch env ev s)

/-! ## Observations used by the statements -/

/-- The initialization calls that wait for the consent gate. -/
def isInitCall : Call → Bool
  | Call.checkAndShowSurvey => true
  | Call.setupEventListeners => true
  | Call.initializeSurvey => true
  | Call.loadUserStatistics => true
  | Call.loadMoodHistory => true
  | _ => false

/-- The calls made on the way from state `s` to the later state `t`. -/
def callsSince (s t : AppState) : List Call :=
  t.calls.drop s.calls.length

/-- The disable effect: the consent prompt is shown and the application page neither
reacts to the pointer nor is fully visible. -/
def Blocked (t : AppState) : Prop :=
  t.dom.consentModalActive = true ∧ t.dom.appPagePointerEvents = "none" ∧
    t.dom.appPageOpacity = "0.5"

/-- The application page is usable and the consent prompt is closed. -/
def Enabled (t : AppState) : Prop :=
  t.dom.consentModalActive = false ∧ t.dom.appPagePointerEvents = "auto" ∧
    t.dom.appPageOpacity = "1"

/-- The gate is closed on the way from `s` to `t`: the application is disabled and no
initialization call was made. -/
def GateClosed (s t : AppState) : Prop :=
  Blocked t ∧ ∀ c ∈ callsSince s t, isInitCall c = false

/-- The gate is open on the way from `s` to `t`: the application is enabled and the
survey check, the statistics load and the history load were called. -/
def GateOpen (s t : AppState) : Prop :=
  Enabled t ∧ Call.checkAndShowSurvey ∈ callsSince s t ∧
    Call.loadUserStatistics ∈ callsSince s t ∧ Call.loadMoodHistory ∈ callsSince s t

instance (t : AppState) : Decidable (Blocked t) := by unfold Blocked; infer_instance

instance (t : AppState) : Decidable (Enabled t) := by unfold Enabled; infer_instance

instance (s t : AppState) : Decidable (GateClosed s t) := by unfold GateClosed; infer_instance

instance (s t : AppState) : Decidable (GateOpen s t) := by unfold GateOpen; infer_instance

/-- The retry a run of `submitSurvey` left pending: the attempt counter handed to the
`submitSurvey` timer found among the calls, if any. -/
def scheduledRetry (cs : List Call) : Option Nat :=
  cs.findSome? fun c =>
    match c with
    | Call.setTimeout (Timer.submitSurvey n) _ => some n
    | _ => none

/-- The function `submitSurvey` called with `retryCount`, followed by every retry its
timers start while the page lives. Each run takes the next element of `attempts`; the
chain ends when a run schedules no retry, or when `attempts` is used up. -/
def runSubmitSurvey (env : Env) : List SurveyAttempt → Nat → AppState → AppState
  | [], _, s => s
  | a :: rest, retryCount, s =>
    match scheduledRetry (callsSince s (submitSurvey env a retryCount s)) with
    | some n => runSubmitSurvey env rest n (submitSurvey env a retryCount s)
    | none => submitSurvey env a retryCount s

/-- The requests among a list of calls. -/
def isFetch : Call → Bool
  | Call.fetch _ _ => true
  | _ => false

/-- The text `msg` contains the text `sub` as a substring. -/
def containsText (msg sub : String) : Prop :=
  sub.data <:+: msg.data

instance (msg sub : String) : Decidable (containsText msg sub) := by
  unfold containsText; infer_instance

/-- The boolean decision an authoritative read delivers, if any: none when the
request fails, the status is not a success, the body is unreadable, or the field
`consent` is null or not a boolean. -/
def ConsentGet.decision : ConsentGet → Option Bool
  | ConsentGet.ok (ConsentField.boolean b) _ => some b
  | _ => none

/-- The state of a session of user `uid` as login, registration and restore leave it:
the in-memory user and the stored user id are both the non-empty `uid`. -/
def LoggedInAs (s : AppState) (uid : String) : Prop :=
  uid ≠ "" ∧ s.currentUser.map (fun u => u.id) = some uid ∧
    getItem s.localStorage "userId" = some uid

instance (s : AppState) (uid : String) : Decidable (LoggedInAs s uid) := by
  unfold LoggedInAs; infer_instance

/-- The local validation of the auth form as the specification words it: the trimmed
username has at least 3 characters, the password at least 6, and in registration mode
the password equals its confirmation. -/
def passesLocalValidation (s : AppState) : Bool :=
  decide (3 ≤ jsLength (jsTrim s.dom.authUsername)) &&
    decide (6 ≤ jsLength s.dom.authPassword) &&
    (s.isLoginMode || s.dom.authPassword == s.dom.authConfirm)

/-- The first value of a list of configuration sources that is present and non-empty. -/
def firstPresent : List (Option String) → Option String
  | [] => none
  | none :: rest => firstPresent rest
  | some v :: rest => if v = "" then firstPresent rest else some v

/-- The endpoint resolver as the specification words it: the first source that is
present and non-empty among the injected value, the query parameter and the saved
override; otherwise the local development endpoint on a loopback host and the hosted
endpoint elsewhere. -/
def resolveBySpec (injected query saved : Option String) (host : String) : String :=
  match firstPresent [injected, query, saved] with
  | some v => v
  | none =>
    if host ∈ ["localhost", "127.0.0.1", "0.0.0.0"] then "http://localhost:7860"
    else "https://1332551170-4tuhxe4fzv.ap-guangzhou.tencentscf.com/api"

/-! ## Example inputs -/

/-- A page served from a public host, with no injected value and no query parameter. -/
def exampleEnv : Env :=
  { injected := none
    apiParam := none
    hostname := "example.org"
    encodeURIComponent := fun x => x
    dateParse := fun _ => some 0 }

/-- A clock reading with the random draw 0. -/
def exampleTick : Tick :=
  { iso := "2026-01-01T00:00:00.000Z", ms := 0, random := 0 }

/-- The document as the page first shows it: the login view. -/
def exampleDom : Dom :=
  { loginPageDisplay := "block"
    appPageDisplay := "none"
    appPagePointerEvents := "auto"
    appPageOpacity := "1"
    consentModalActive := false
    surveyModalActive := false
    apiSettingsModalActive := false
    userNameDisplay := ""
    usernameError := ""
    passwordError := ""
    confirmError := ""
    authError := ""
    authUsername := ""
    authPassword := ""
    authConfirm := ""
    customApiUrl := ""
    page := PageStatus.live }

/-- A session of user `uid` on a freshly loaded page whose storage holds `cache`
besides the three session keys. -/
def exampleSession (uid : String) (cache : Storage) : AppState :=
  { initialState exampleEnv
      (setItem (setItem (setItem cache "token" "t0") "userId" uid) "userName" uid)
      exampleDom with
    currentUser := some { id := uid, name := uid } }

/-- The session in which user bob, starting without any consent entry, accepts
consent and logs out, and the form is filled in for user bob_date. -/
def bobAcceptedAndLeft : AppState :=
  runEvents exampleEnv
    [Event.acceptConsent exampleTick (PostOutcome.status 200), Event.logout true,
      Event.typeUsername "bob_date", Event.typePassword "secret1",
      Event.typeConfirm "secret1"]
    (exampleSession "bob" [])

/-- The session `bobAcceptedAndLeft` after user bob_date submits the form, the server
accepts, and the authoritative consent read for bob_date answers null. -/
def bobDateSignedIn : AppState :=
  dispatch exampleEnv
    (Event.authSubmit exampleTick (AuthResponse.success "bob_date" "bob_date" "t1")
      (ConsentGet.ok ConsentField.other none))
    bobAcceptedAndLeft

/-- A freshly loaded page on which the user typed the override http://new.example into
the settings dialog. -/
def overrideTyped : AppState :=
  dispatch exampleEnv (Event.typeCustomApiUrl "http://new.example")
    (initialState exampleEnv [] exampleDom)

/-- A freshly loaded page whose login form holds the user name bob and the password
secret1. -/
def loginFormFilled : AppState :=
  runEvents exampleEnv [Event.typeUsername "bob", Event.typePassword "secret1"]
    (initialState exampleEnv [] exampleDom)

/-- A selection that answers every question of the survey. -/
def exampleAnswers : List (Nat × Nat) :=
  [(1, 0), (2, 1), (3, 0), (4, 2), (5, 3)]

/-- A run of `submitSurvey` that finds the survey complete and receives `r`. -/
def attemptWith (r : SurveyResponse) : SurveyAttempt :=
  { tick := exampleTick, checked := exampleAnswers, response := r }

/-- A page served from the host localhost, with no injected value and no query
parameter. -/
def localEnv : Env :=
  { exampleEnv with hostname := "localhost" }

/-- A session of user bob on a page freshly loaded from the host localhost. -/
def localSession : AppState :=
  { initialState localEnv [("token", "t0"), ("userId", "bob"), ("userName", "bob")]
      exampleDom with
    currentUser := some { id := "bob", name := "bob" } }

/-- A session of user bob on whose page the auth form again holds the user name bob and
the password secret1. -/
def sessionFormFilled : AppState :=
  runEvents exampleEnv [Event.typeUsername "bob", Event.typePassword "secret1"]
    (exampleSession "bob" [])

/-- The session of user bob at the consent prompt: the authoritative read answered null
and the gate is closed. -/
def bobAtPrompt : AppState :=
  showApp exampleEnv exampleTick (ConsentGet.ok ConsentField.other none)
    (exampleSession "bob" [])

/-- The session `bobAtPrompt` after bob clicks decline: the request is awaited. -/
def bobDeclining : AppState :=
  dispatch exampleEnv (Event.declineConsent false) bobAtPrompt

/-- The session `bobDeclining` after bob clicks accept while the request of the decline
is awaited, and that request then settles. -/
def bobAcceptedWhileDeclining : AppState :=
  runEvents exampleEnv
    [Event.acceptConsent exampleTick (PostOutcome.status 200),
      Event.declineConsentSettled (PostOutcome.status 200) false]
    bobDeclining

/-! ## Lemmas on the storage and on the handlers -/

theorem getItem_cons (st : Storage) (k v k2 : String) :
    getItem ((k, v) :: st) k2 = if k2 = k then some v else getItem st k2 := by
  unfold getItem
  rw [List.lookup_cons]
  by_cases h : k2 = k
  · subst h; simp
  · have : (k2 == k) = false := by simpa using h
    simp [this, h]

theorem getItem_removeItem_same (st : Storage) (k : String) :
    getItem (removeItem st k) k = none := by
  induction st with
  | nil => rfl
  | cons p st ih =>
    obtain ⟨a, b⟩ := p
    unfold removeItem at ih ⊢
    by_cases h : a = k
    · subst h; simpa [List.filter_cons] using ih
    · have hk : ¬ k = a := fun e => h e.symm
      simp [List.filter_cons, h, getItem_cons, hk]
      simpa using ih

theorem getItem_removeItem_ne (st : Storage) (k k2 : String) (h : k2 ≠ k) :
    getItem (removeItem st k) k2 = getItem st k2 := by
  induction st with
  | nil => rfl
  | cons p st ih =>
    obtain ⟨a, b⟩ := p
    unfold removeItem at ih ⊢
    by_cases ha : a = k
    · subst ha
      simp [List.filter_cons, getItem_cons, h]
      simpa using ih
    · simp [List.filter_cons, ha, getItem_cons]
      split
      · rfl
      · simpa using ih

theorem getItem_setItem_same (st : Storage) (k v : String) :
    getItem (setItem st k v) k = some v := by
  simp [setItem, getItem_cons]

theorem getItem_setItem_ne (st : Storage) (k v k2 : String) (h : k2 ≠ k) :
    getItem (setItem st k v) k2 = getItem st k2 := by
  simp [setItem, getItem_cons, h, getItem_removeItem_ne]

theorem truthy_some (v : String) : truthy (some v) = true ↔ v ≠ "" := by
  simp [truthy]

theorem length_lt_ne (a b : String) (h : a.length ≠ b.length) : a ≠ b := by
  intro e; exact h (by rw [e])

theorem consentKey_ne_date (k : String) : k ≠ k ++ "_date" := by
  apply length_lt_ne
  simp [String.length_append]
  decide

theorem jsOr_none_eq_some (a : Option String) (uid : String) (h : jsOr a none = some uid) :
    a = some uid ∧ uid ≠ "" := by
  unfold jsOr at h
  split at h
  · subst h; rename_i ht; exact ⟨rfl, by simpa [truthy] using ht⟩
  · cases h

theorem sessionUserId_ne_empty (s : AppState) (uid : String) (h : sessionUserId s = some uid) :
    uid ≠ "" :=
  (jsOr_none_eq_some _ _ h).2

theorem LoggedInAs.sessionUserId {s : AppState} {uid : String} (h : LoggedInAs s uid) :
    sessionUserId s = some uid := by
  obtain ⟨hne, hcur, hls⟩ := h
  simp [GriefCompanion.sessionUserId, jsOr, hcur, hls, truthy, hne]

theorem LoggedInAs.storedUserId {s : AppState} {uid : String} (h : LoggedInAs s uid) :
    storedUserId s = some uid := by
  obtain ⟨hne, hcur, hls⟩ := h
  simp [GriefCompanion.storedUserId, jsOr, hcur, hls, truthy, hne]

theorem consentKeyOf_some (uid : String) (h : uid ≠ "") :
    consentKeyOf (some uid) = "consent_agreed_" ++ uid := by
  simp [consentKeyOf, truthy, h]

theorem checkAndShowSurvey_eq (env : Env) (tick : Tick) (s : AppState) :
    ∃ mid, (∀ c ∈ mid, isInitCall c = false) ∧
      checkAndShowSurvey env tick s =
        { s with calls := s.calls ++ Call.checkAndShowSurvey :: mid } := by
  unfold checkAndShowSurvey
  simp only [record]
  split
  · split
    · exact ⟨[Call.setTimeout Timer.showSurvey 3000], by simp [isInitCall], by simp⟩
    · exact ⟨[], by simp, by simp⟩
  · split
    · exact ⟨[], by simp, by simp⟩
    · split
      · exact ⟨[Call.setTimeout Timer.showSurvey 2000], by simp [isInitCall], by simp⟩
      · exact ⟨[], by simp, by simp⟩

theorem continueInit_eq (env : Env) (tick : Tick) (s : AppState) :
    ∃ mid, (∀ c ∈ mid, isInitCall c = false) ∧
      continueInit env tick s =
        { s with calls := s.calls ++ (Call.checkAndShowSurvey :: mid ++
            [Call.setupEventListeners, Call.initializeSurvey, Call.loadUserStatistics,
              Call.loadMoodHistory]) } := by
  obtain ⟨mid, hmid, h⟩ := checkAndShowSurvey_eq env tick s
  refine ⟨mid, hmid, ?_⟩
  simp [continueInit, h, loadMoodHistory, loadUserStatistics, initializeSurvey,
    setupEventListeners, record]

theorem callsSince_of_append (s t : AppState) (xs : List Call) (h : t.calls = s.calls ++ xs) :
    callsSince s t = xs := by
  simp [callsSince, h]

theorem initApp_eq_of_blocked (env : Env) (tick : Tick) (s : AppState) (uid : String)
    (hU : sessionUserId s = some uid)
    (hC : truthy (getItem s.localStorage ("consent_agreed_" ++ uid)) = false ∨
      getItem s.localStorage ("consent_agreed_" ++ uid) = some "false") :
    initApp env tick s = { s with dom := { s.dom with
      consentModalActive := true, appPagePointerEvents := "none", appPageOpacity := "0.5" } } := by
  have hne := sessionUserId_ne_empty s uid hU
  unfold initApp
  simp only [hU, consentKeyOf_some uid hne]
  have htu : truthy (some uid) = true := by simp [truthy, hne]
  rcases hC with hC | hC
  · simp [hC, htu]
  · simp [hC, htu]

theorem initApp_eq_of_granted (env : Env) (tick : Tick) (s : AppState) (uid : String)
    (hU : sessionUserId s = some uid)
    (hT : truthy (getItem s.localStorage ("consent_agreed_" ++ uid)) = true)
    (hF : getItem s.localStorage ("consent_agreed_" ++ uid) ≠ some "false") :
    initApp env tick s = continueInit env tick { s with dom := { s.dom with
      consentModalActive := false, appPagePointerEvents := "auto", appPageOpacity := "1" } } := by
  have hne := sessionUserId_ne_empty s uid hU
  unfold initApp
  have htu : truthy (some uid) = true := by simp [truthy, hne]
  simp only [hU, consentKeyOf_some uid hne]
  simp [hT, hF, htu]

theorem continueInit_fields (env : Env) (tick : Tick) (s : AppState) :
    (continueInit env tick s).localStorage = s.localStorage ∧
    (continueInit env tick s).currentUser = s.currentUser ∧
    (continueInit env tick s).dom = s.dom ∧
    (continueInit env tick s).isLoginMode = s.isLoginMode := by
  obtain ⟨mid, -, h⟩ := continueInit_eq env tick s
  simp [h]

theorem gateOpen_not_closed (s t : AppState) (h : GateOpen s t) : ¬ GateClosed s t := by
  intro hc
  have h1 := h.1.1
  have h2 := hc.1.1
  rw [h1] at h2
  cases h2

theorem initApp_gate (env : Env) (tick : Tick) (s0 s1 : AppState) (uid : String)
    (pre : List Call) (hU : sessionUserId s1 = some uid)
    (hcalls : s1.calls = s0.calls ++ pre) (hpre : ∀ c ∈ pre, isInitCall c = false) :
    (initApp env tick s1).localStorage = s1.localStorage ∧
    (initApp env tick s1).currentUser = s1.currentUser ∧
    ((truthy (getItem s1.localStorage ("consent_agreed_" ++ uid)) = false ∨
        getItem s1.localStorage ("consent_agreed_" ++ uid) = some "false") →
      GateClosed s0 (initApp env tick s1) ∧ (initApp env tick s1).calls = s1.calls) ∧
    ((truthy (getItem s1.localStorage ("consent_agreed_" ++ uid)) = true ∧
        getItem s1.localStorage ("consent_agreed_" ++ uid) ≠ some "false") →
      GateOpen s0 (initApp env tick s1)) := by
  by_cases hC : truthy (getItem s1.localStorage ("consent_agreed_" ++ uid)) = false ∨
      getItem s1.localStorage ("consent_agreed_" ++ uid) = some "false"
  · have h := initApp_eq_of_blocked env tick s1 uid hU hC
    rw [h]
    refine ⟨rfl, rfl, fun _ => ⟨⟨⟨rfl, rfl, rfl⟩, ?_⟩, rfl⟩, ?_⟩
    · intro c hc
      apply hpre
      simpa [callsSince, hcalls] using hc
    · rintro ⟨hT, hF⟩
      rcases hC with hC | hC
      · rw [hC] at hT; cases hT
      · exact absurd hC hF
  · have hT : truthy (getItem s1.localStorage ("consent_agreed_" ++ uid)) = true := by
      by_contra hn
      exact hC (Or.inl (by simpa using hn))
    have hF : getItem s1.localStorage ("consent_agreed_" ++ uid) ≠ some "false" :=
      fun e => hC (Or.inr e)
    have h := initApp_eq_of_granted env tick s1 uid hU hT hF
    obtain ⟨mid, -, hc⟩ := continueInit_eq env tick { s1 with dom := { s1.dom with
      consentModalActive := false, appPagePointerEvents := "auto", appPageOpacity := "1" } }
    rw [h, hc]
    refine ⟨rfl, rfl, fun hh => absurd hh hC, fun _ => ⟨⟨rfl, rfl, rfl⟩, ?_⟩⟩
    have hs : callsSince s0 { s1 with
        dom := { s1.dom with
          consentModalActive := false, appPagePointerEvents := "auto", appPageOpacity := "1" }
        calls := s1.calls ++ (Call.checkAndShowSurvey :: mid ++
          [Call.setupEventListeners, Call.initializeSurvey, Call.loadUserStatistics,
            Call.loadMoodHistory]) } =
        pre ++ (Call.checkAndShowSurvey :: mid ++
          [Call.setupEventListeners, Call.initializeSurvey, Call.loadUserStatistics,
            Call.loadMoodHistory]) := by
      apply callsSince_of_append
      simp [hcalls]
    rw [hs]
    simp

theorem showApp_loggedIn (env : Env) (tick : Tick) (resp : ConsentGet) (s : AppState)
    (uid : String) (h : LoggedInAs s uid) :
    ∃ name ls,
      (resp.decision = none → ls = s.localStorage) ∧
      (∀ b, resp.decision = some b → ∃ stamp,
        ls = setItem (setItem s.localStorage ("consent_agreed_" ++ uid)
          (if b then "true" else "false")) ("consent_agreed_" ++ uid ++ "_date") stamp) ∧
      showApp env tick resp s = initApp env tick { s with
        localStorage := ls
        dom := { s.dom with
          loginPageDisplay := "none", appPageDisplay := "block", userNameDisplay := name }
        calls := s.calls ++ [Call.fetch "GET" (consentGetUrl env s uid)] } := by
  have hS := h.storedUserId
  obtain ⟨hne, hcur, -⟩ := h
  have htu : truthy (some uid) = true := by simp [truthy, hne]
  obtain ⟨u, hu, -⟩ : ∃ u, s.currentUser = some u ∧ u.id = uid := by
    cases hc : s.currentUser with
    | none => simp [hc] at hcur
    | some u => exact ⟨u, rfl, by simpa [hc] using hcur⟩
  cases resp with
  | ok consent date =>
    cases consent with
    | boolean b =>
      refine ⟨u.name, setItem (setItem s.localStorage ("consent_agreed_" ++ uid)
          (if b then "true" else "false")) ("consent_agreed_" ++ uid ++ "_date")
          ((jsOr date (some tick.iso)).getD tick.iso),
        fun hd => by simp [ConsentGet.decision] at hd, fun b2 hb => ?_, ?_⟩
      · simp only [ConsentGet.decision, Option.some.injEq] at hb
        subst hb
        exact ⟨_, rfl⟩
      · cases b <;> simp [showApp, hS, htu, hu, record]
    | other =>
      refine ⟨u.name, s.localStorage, fun _ => rfl,
        fun b hb => by simp [ConsentGet.decision] at hb, ?_⟩
      simp [showApp, hS, htu, hu, record]
  | transportError =>
    refine ⟨u.name, s.localStorage, fun _ => rfl,
      fun b hb => by simp [ConsentGet.decision] at hb, ?_⟩
    simp [showApp, hS, htu, hu, record]
  | notOk st =>
    refine ⟨u.name, s.localStorage, fun _ => rfl,
      fun b hb => by simp [ConsentGet.decision] at hb, ?_⟩
    simp [showApp, hS, htu, hu, record]
  | badBody =>
    refine ⟨u.name, s.localStorage, fun _ => rfl,
      fun b hb => by simp [ConsentGet.decision] at hb, ?_⟩
    simp [showApp, hS, htu, hu, record]

theorem consentKey_ne_short (uid k : String) (hk : k.length < 15) :
    k ≠ "consent_agreed_" ++ uid ∧ k ≠ "consent_agreed_" ++ uid ++ "_date" := by
  constructor
  · apply length_lt_ne
    have : ("consent_agreed_" : String).length = 15 := by decide
    simp only [String.length_append, this]
    omega
  · apply length_lt_ne
    have : ("consent_agreed_" : String).length = 15 := by decide
    simp only [String.length_append, this]
    omega

theorem sessionUserId_congr (s1 s : AppState) (hc : s1.currentUser = s.currentUser)
    (hl : getItem s1.localStorage "userId" = getItem s.localStorage "userId") :
    sessionUserId s1 = sessionUserId s := by
  simp [sessionUserId, hc, hl]

/-! ## The consent gate -/

/-- C1: when `initApp` runs for a logged-in user whose per-user consent entry is absent
or declined, it shows the consent prompt, sets pointer-events to none and opacity to 0.5,
and returns with the trace unchanged, so none of the initialization calls is made. In
particular, when the authoritative read answers null for a user without a local entry,
`showApp` only issues the read and ends with the gate closed. -/
theorem initApp_closed_gate_halts (env : Env) (tick : Tick) (s : AppState) (uid : String)
    (hUser : sessionUserId s = some uid)
    (hEntry : getItem s.localStorage ("consent_agreed_" ++ uid) = none ∨
      getItem s.localStorage ("consent_agreed_" ++ uid) = some "false") :
    Blocked (initApp env tick s) ∧
    (initApp env tick s).calls = s.calls ∧
    GateClosed s (initApp env tick s) ∧
    (∀ date, LoggedInAs s uid →
      getItem s.localStorage ("consent_agreed_" ++ uid) = none →
      GateClosed s (showApp env tick (ConsentGet.ok ConsentField.other date) s) ∧
      (showApp env tick (ConsentGet.ok ConsentField.other date) s).calls =
        s.calls ++ [Call.fetch "GET" (consentGetUrl env s uid)]) := by
  have hC : truthy (getItem s.localStorage ("consent_agreed_" ++ uid)) = false ∨
      getItem s.localStorage ("consent_agreed_" ++ uid) = some "false" := by
    rcases hEntry with h | h
    · exact Or.inl (by rw [h]; rfl)
    · exact Or.inr h
  have h0 := (initApp_gate env tick s s uid [] hUser (by simp) (by simp)).2.2.1 hC
  refine ⟨h0.1.1, h0.2, h0.1, ?_⟩
  intro date hL hNone
  obtain ⟨name, ls, hls, -, hEq⟩ := showApp_loggedIn env tick (ConsentGet.ok ConsentField.other date) s uid hL
  have hls2 : ls = s.localStorage := hls rfl
  subst hls2
  rw [hEq]
  have hU1 : sessionUserId { s with
      dom := { s.dom with
        loginPageDisplay := "none", appPageDisplay := "block", userNameDisplay := name }
      calls := s.calls ++ [Call.fetch "GET" (consentGetUrl env s uid)] } = some uid := by
    rw [← hUser]; exact sessionUserId_congr _ _ rfl rfl
  have h1 := (initApp_gate env tick s _ uid [Call.fetch "GET" (consentGetUrl env s uid)] hU1 rfl
    (by simp [isInitCall])).2.2.1 (Or.inl (by simp [hNone, truthy]))
  exact ⟨h1.1, h1.2⟩

/-- Witness of C1: user bob, freshly logged in on a page with an empty consent cache. -/
theorem initApp_closed_gate_halts_witness :
    Blocked (initApp exampleEnv exampleTick (exampleSession "bob" [])) ∧
    (initApp exampleEnv exampleTick (exampleSession "bob" [])).calls =
      (exampleSession "bob" []).calls ∧
    GateClosed (exampleSession "bob" [])
      (showApp exampleEnv exampleTick (ConsentGet.ok ConsentField.other none)
        (exampleSession "bob" [])) :=
  have h := initApp_closed_gate_halts exampleEnv exampleTick (exampleSession "bob" []) "bob"
    (by decide) (by decide)
  ⟨h.1, h.2.1, (h.2.2.2 none (by decide) (by decide)).1⟩

/-- C2, as amended: for a logged-in user the reconcile sequence (`showApp`, then
`initApp`) decides as follows. If the authoritative read delivers a boolean `b`, the
local entry of the user becomes `b` and the gate is open exactly when `b` is true. If
it delivers no boolean (transport failure, non-success status, unreadable body, null),
the storage is unchanged and the gate is open exactly when the local entry is a
non-empty string other than 'false': open for 'true', closed when absent or 'false'. -/
theorem reconcile_decision (env : Env) (tick : Tick) (resp : ConsentGet) (s : AppState)
    (uid : String) (hUser : LoggedInAs s uid) :
    (∀ b, resp.decision = some b →
      getItem (showApp env tick resp s).localStorage ("consent_agreed_" ++ uid) =
        some (if b then "true" else "false") ∧
      (GateOpen s (showApp env tick resp s) ↔ b = true) ∧
      (GateClosed s (showApp env tick resp s) ↔ b = false)) ∧
    (resp.decision = none →
      (showApp env tick resp s).localStorage = s.localStorage ∧
      (GateOpen s (showApp env tick resp s) ↔
        (truthy (getItem s.localStorage ("consent_agreed_" ++ uid)) = true ∧
          getItem s.localStorage ("consent_agreed_" ++ uid) ≠ some "false")) ∧
      (GateClosed s (showApp env tick resp s) ↔
        (truthy (getItem s.localStorage ("consent_agreed_" ++ uid)) = false ∨
          getItem s.localStorage ("consent_agreed_" ++ uid) = some "false")) ∧
      (getItem s.localStorage ("consent_agreed_" ++ uid) = some "true" →
        GateOpen s (showApp env tick resp s)) ∧
      (getItem s.localStorage ("consent_agreed_" ++ uid) = none ∨
          getItem s.localStorage ("consent_agreed_" ++ uid) = some "false" →
        GateClosed s (showApp env tick resp s))) := by
  obtain ⟨name, ls, hNone, hSome, hEq⟩ := showApp_loggedIn env tick resp s uid hUser
  have hU1 : sessionUserId { s with
      localStorage := ls
      dom := { s.dom with
        loginPageDisplay := "none", appPageDisplay := "block", userNameDisplay := name }
      calls := s.calls ++ [Call.fetch "GET" (consentGetUrl env s uid)] } = some uid := by
    obtain ⟨hne, hcur, -⟩ := hUser
    simp [sessionUserId, jsOr, hcur, truthy, hne]
  obtain ⟨hLs, -, hClosed, hOpen⟩ := initApp_gate env tick s _ uid
    [Call.fetch "GET" (consentGetUrl env s uid)] hU1 rfl (by simp [isInitCall])
  rw [← hEq] at hLs hClosed hOpen
  simp only at hLs hClosed hOpen
  have hne_date : "consent_agreed_" ++ uid ≠ "consent_agreed_" ++ uid ++ "_date" :=
    consentKey_ne_date _
  constructor
  · intro b hb
    obtain ⟨stamp, hls⟩ := hSome b hb
    have hEntry : getItem ls ("consent_agreed_" ++ uid) = some (if b then "true" else "false") := by
      rw [hls, getItem_setItem_ne _ _ _ _ hne_date, getItem_setItem_same]
    rw [hLs]
    refine ⟨hEntry, ?_, ?_⟩
    · cases b
      · have hc := (hClosed (Or.inr (by simpa using hEntry))).1
        simp only [Bool.false_eq_true, iff_false]
        exact fun ho => gateOpen_not_closed _ _ ho hc
      · have ho := hOpen ⟨by rw [hEntry]; decide, by rw [hEntry]; decide⟩
        simp [ho]
    · cases b
      · have hc := (hClosed (Or.inr (by simpa using hEntry))).1
        simp [hc]
      · have ho := hOpen ⟨by rw [hEntry]; decide, by rw [hEntry]; decide⟩
        simp only [Bool.true_eq_false, iff_false]
        exact gateOpen_not_closed _ _ ho
  · intro hd
    have hls := hNone hd
    subst hls
    have hIffOpen : GateOpen s (showApp env tick resp s) ↔
        (truthy (getItem s.localStorage ("consent_agreed_" ++ uid)) = true ∧
          getItem s.localStorage ("consent_agreed_" ++ uid) ≠ some "false") := by
      constructor
      · intro ho
        by_contra hn
        have hC : truthy (getItem s.localStorage ("consent_agreed_" ++ uid)) = false ∨
            getItem s.localStorage ("consent_agreed_" ++ uid) = some "false" := by
          by_cases hT : truthy (getItem s.localStorage ("consent_agreed_" ++ uid)) = true
          · right
            by_contra hF
            exact hn ⟨hT, hF⟩
          · left; simpa using hT
        exact gateOpen_not_closed _ _ ho (hClosed hC).1
      · exact hOpen
    have hIffClosed : GateClosed s (showApp env tick resp s) ↔
        (truthy (getItem s.localStorage ("consent_agreed_" ++ uid)) = false ∨
          getItem s.localStorage ("consent_agreed_" ++ uid) = some "false") := by
      constructor
      · intro hc
        by_contra hn
        have hT : truthy (getItem s.localStorage ("consent_agreed_" ++ uid)) = true := by
          by_contra hT
          exact hn (Or.inl (by simpa using hT))
        have hF : getItem s.localStorage ("consent_agreed_" ++ uid) ≠ some "false" :=
          fun e => hn (Or.inr e)
        exact gateOpen_not_closed _ _ (hOpen ⟨hT, hF⟩) hc
      · exact fun hC => (hClosed hC).1
    refine ⟨hLs, hIffOpen, hIffClosed, ?_, ?_⟩
    · intro hT
      exact hIffOpen.2 ⟨by rw [hT]; decide, by rw [hT]; decide⟩
    · rintro (h | h)
      · exact hIffClosed.2 (Or.inl (by rw [h]; rfl))
      · exact hIffClosed.2 (Or.inr h)

/-- Witness of C2, as amended: user bob with a granted local entry and a failed read. -/
theorem reconcile_decision_witness :
    GateOpen (exampleSession "bob" [("consent_agreed_bob", "true")])
      (showApp exampleEnv exampleTick ConsentGet.transportError
        (exampleSession "bob" [("consent_agreed_bob", "true")])) :=
  ((reconcile_decision exampleEnv exampleTick ConsentGet.transportError
    (exampleSession "bob" [("consent_agreed_bob", "true")]) "bob" (by decide)).2
      (by decide)).2.2.2.1 (by decide)

/-- Counterexample to C2 as stated: the read fails, the local entry of the user is a
date string and not the granted value, and the gate is open all the same. -/
theorem reconcile_failed_read_opens_on_non_granted_entry :
    LoggedInAs (exampleSession "bob_date" [("consent_agreed_bob_date", "2026-01-01")])
      "bob_date" ∧
    ConsentGet.transportError.decision = none ∧
    ¬ (GateOpen (exampleSession "bob_date" [("consent_agreed_bob_date", "2026-01-01")])
        (showApp exampleEnv exampleTick ConsentGet.transportError
          (exampleSession "bob_date" [("consent_agreed_bob_date", "2026-01-01")])) ↔
      getItem (exampleSession "bob_date" [("consent_agreed_bob_date", "2026-01-01")]).localStorage
        ("consent_agreed_" ++ "bob_date") = some "true") := by
  decide

/-- C3, evaluated at the failing input: the storage holds no consent entry for user
bob_date; user bob accepts consent and logs out; bob_date registers and the
authoritative read answers null. The date entry written for bob is the consent key
of bob_date, and the gate is open for bob_date. -/
theorem consent_date_key_opens_gate_for_other_user :
    getItem (exampleSession "bob" []).localStorage ("consent_agreed_" ++ "bob_date") = none ∧
    sessionUserId bobDateSignedIn = some "bob_date" ∧
    getItem bobDateSignedIn.localStorage ("consent_agreed_" ++ "bob_date") =
      some exampleTick.iso ∧
    GateOpen bobAcceptedAndLeft bobDateSignedIn := by
  decide

theorem acceptConsent_eq (env : Env) (tick : Tick) (post : PostOutcome) (s : AppState)
    (uid : String) (hU : sessionUserId s = some uid) :
    acceptConsent env tick post s = continueInit env tick { s with
      localStorage := setItem (setItem s.localStorage ("consent_agreed_" ++ uid) "true")
        ("consent_agreed_" ++ uid ++ "_date") tick.iso
      dom := { s.dom with
        consentModalActive := false, appPagePointerEvents := "auto", appPageOpacity := "1" }
      calls := s.calls ++ [Call.fetch "POST" (consentPostUrl env s)] } := by
  have hne := sessionUserId_ne_empty s uid hU
  have htu : truthy (some uid) = true := by simp [truthy, hne]
  have hk := consentKey_ne_short uid "userId" (by decide)
  have hU1 : sessionUserId { s with
      localStorage := setItem (setItem s.localStorage ("consent_agreed_" ++ uid) "true")
        ("consent_agreed_" ++ uid ++ "_date") tick.iso
      dom := { s.dom with
        consentModalActive := false, appPagePointerEvents := "auto", appPageOpacity := "1" } } =
      some uid := by
    rw [← hU]
    refine sessionUserId_congr _ s rfl ?_
    simp only
    rw [getItem_setItem_ne _ _ _ _ hk.2, getItem_setItem_ne _ _ _ _ hk.1]
  unfold acceptConsent
  simp only [hU, consentKeyOf_some uid hne, hU1, htu, if_true]
  rfl

theorem acceptConsent_keeps_unrelated_entry (env : Env) (tick : Tick) (post : PostOutcome)
    (s : AppState) (a k : String) (hA : sessionUserId s = some a)
    (hk1 : k ≠ "consent_agreed_" ++ a) (hk2 : k ≠ "consent_agreed_" ++ a ++ "_date") :
    getItem (acceptConsent env tick post s).localStorage k = getItem s.localStorage k := by
  rw [acceptConsent_eq env tick post s a hA, (continueInit_fields env tick _).1]
  simp only
  rw [getItem_setItem_ne _ _ _ _ hk2, getItem_setItem_ne _ _ _ _ hk1]

/-- C5: for a logged-in user and every outcome of the notification, after
`acceptConsent` the consent entry of the user is 'true' and its date entry holds the
current time, the application is enabled again, and `initApp` run afterwards for the
same user finds the gate open. -/
theorem acceptConsent_grants (env : Env) (tick : Tick) (post : PostOutcome) (s : AppState)
    (uid : String) (hUser : sessionUserId s = some uid) :
    getItem (acceptConsent env tick post s).localStorage ("consent_agreed_" ++ uid) =
      some "true" ∧
    getItem (acceptConsent env tick post s).localStorage
      ("consent_agreed_" ++ uid ++ "_date") = some tick.iso ∧
    Enabled (acceptConsent env tick post s) ∧
    sessionUserId (acceptConsent env tick post s) = some uid ∧
    (∀ env2 tick2, GateOpen (acceptConsent env tick post s)
      (initApp env2 tick2 (acceptConsent env tick post s))) := by
  have hEq := acceptConsent_eq env tick post s uid hUser
  obtain ⟨hLs, hCur, hDom, -⟩ := continueInit_fields env tick { s with
      localStorage := setItem (setItem s.localStorage ("consent_agreed_" ++ uid) "true")
        ("consent_agreed_" ++ uid ++ "_date") tick.iso
      dom := { s.dom with
        consentModalActive := false, appPagePointerEvents := "auto", appPageOpacity := "1" }
      calls := s.calls ++ [Call.fetch "POST" (consentPostUrl env s)] }
  rw [← hEq] at hLs hCur hDom
  simp only at hLs hCur hDom
  have hk := consentKey_ne_short uid "userId" (by decide)
  have hEntry : getItem (acceptConsent env tick post s).localStorage
      ("consent_agreed_" ++ uid) = some "true" := by
    rw [hLs, getItem_setItem_ne _ _ _ _ (consentKey_ne_date _), getItem_setItem_same]
  have hDate : getItem (acceptConsent env tick post s).localStorage
      ("consent_agreed_" ++ uid ++ "_date") = some tick.iso := by
    rw [hLs, getItem_setItem_same]
  have hU1 : sessionUserId (acceptConsent env tick post s) = some uid := by
    rw [← hUser]
    apply sessionUserId_congr _ _ hCur
    rw [hLs, getItem_setItem_ne _ _ _ _ hk.2, getItem_setItem_ne _ _ _ _ hk.1]
  refine ⟨hEntry, hDate, ?_, hU1, ?_⟩
  · unfold Enabled
    rw [hDom]
    exact ⟨rfl, rfl, rfl⟩
  · intro env2 tick2
    exact (initApp_gate env2 tick2 _ _ uid [] hU1 (by simp) (by simp)).2.2.2
      ⟨by rw [hEntry]; decide, by rw [hEntry]; decide⟩

/-- Witness of C5: user bob accepts while the notification fails in transport. -/
theorem acceptConsent_grants_witness :
    getItem (acceptConsent exampleEnv exampleTick PostOutcome.transportError
      (exampleSession "bob" [])).localStorage ("consent_agreed_" ++ "bob") = some "true" ∧
    Enabled (acceptConsent exampleEnv exampleTick PostOutcome.transportError
      (exampleSession "bob" [])) :=
  have h := acceptConsent_grants exampleEnv exampleTick PostOutcome.transportError
    (exampleSession "bob" []) "bob" (by decide)
  ⟨h.1, h.2.2.1⟩

theorem runEvents_tornDown (env : Env) (evs : List Event) (s : AppState)
    (h : s.dom.page ≠ PageStatus.live) : runEvents env evs s = s := by
  induction evs with
  | nil => rfl
  | cons ev rest ih =>
    have hd : dispatch env ev s = s := by
      unfold dispatch
      simp [h]
    rw [runEvents, hd, ih]

theorem declineConsent_pending (env : Env) (replaceThrows : Bool) (s : AppState)
    (uid : String) (hUser : sessionUserId s = some uid) :
    declineConsent env replaceThrows s =
      { s with
        localStorage := setItem s.localStorage ("consent_agreed_" ++ uid) "false"
        calls := s.calls ++ [Call.alert "您已拒绝数据收集。页面将关闭以保护您的选择。",
          Call.fetch "POST" (consentPostUrl env s)] } := by
  have hne := sessionUserId_ne_empty s uid hUser
  have htu : truthy (some uid) = true := by simp [truthy, hne]
  have hU0 : sessionUserId (record (Call.alert "您已拒绝数据收集。页面将关闭以保护您的选择。") s) =
      some uid := by
    rw [← hUser]; exact sessionUserId_congr _ _ rfl rfl
  unfold declineConsent
  simp only [hU0, consentKeyOf_some uid hne, htu, if_true]
  simp [record, consentPostUrl]

/-- When nothing else happens between `declineConsent` and the settling of its request,
the consent entry of the user is 'false', the page is torn down, no initialization
call was made, and no later event changes the state. -/
theorem declineConsent_uninterrupted (env : Env) (post : PostOutcome)
    (replaceThrows : Bool) (s : AppState) (uid : String)
    (hUser : sessionUserId s = some uid) :
    getItem (declineConsentSettled post replaceThrows
      (declineConsent env replaceThrows s)).localStorage ("consent_agreed_" ++ uid) =
      some "false" ∧
    ((declineConsentSettled post replaceThrows
        (declineConsent env replaceThrows s)).dom.page = PageStatus.replaced ∨
      (declineConsentSettled post replaceThrows
        (declineConsent env replaceThrows s)).dom.page = PageStatus.bodyCleared) ∧
    (∀ c ∈ callsSince s (declineConsentSettled post replaceThrows
      (declineConsent env replaceThrows s)), isInitCall c = false) ∧
    (∀ evs, runEvents env evs (declineConsentSettled post replaceThrows
        (declineConsent env replaceThrows s)) =
      declineConsentSettled post replaceThrows (declineConsent env replaceThrows s)) := by
  rw [declineConsent_pending env replaceThrows s uid hUser]
  have hPage : ∀ x : AppState,
      (declineConsentSettled post replaceThrows x).dom.page = PageStatus.replaced ∨
      (declineConsentSettled post replaceThrows x).dom.page = PageStatus.bodyCleared := by
    intro x
    unfold declineConsentSettled declineConsentFinally
    cases replaceThrows <;> simp
  refine ⟨?_, hPage _, ?_, ?_⟩
  · simp [declineConsentSettled, declineConsentFinally, getItem_setItem_same]
  · simp [declineConsentSettled, declineConsentFinally, callsSince, isInitCall]
  · intro evs
    apply runEvents_tornDown
    rcases hPage { s with
        localStorage := setItem s.localStorage ("consent_agreed_" ++ uid) "false"
        calls := s.calls ++ [Call.alert "您已拒绝数据收集。页面将关闭以保护您的选择。",
          Call.fetch "POST" (consentPostUrl env s)] } with h | h <;> rw [h] <;> decide

/-- C4, evaluated at the failing input: user bob is at the consent prompt and clicks
decline. The entry of bob is 'false', the request is awaited, the page is live and the
prompt is still open. Bob clicks accept before the request settles: the entry of bob
becomes 'true' and the survey check, the statistics load and the history load are
called. Only then the request settles and the page is replaced. -/
theorem accept_while_decline_is_pending_initializes :
    Blocked bobAtPrompt ∧
    getItem bobDeclining.localStorage ("consent_agreed_" ++ "bob") = some "false" ∧
    bobDeclining.dom.page = PageStatus.live ∧
    bobDeclining.dom.consentModalActive = true ∧
    getItem bobAcceptedWhileDeclining.localStorage ("consent_agreed_" ++ "bob") =
      some "true" ∧
    Call.checkAndShowSurvey ∈ callsSince bobDeclining bobAcceptedWhileDeclining ∧
    Call.loadUserStatistics ∈ callsSince bobDeclining bobAcceptedWhileDeclining ∧
    Call.loadMoodHistory ∈ callsSince bobDeclining bobAcceptedWhileDeclining ∧
    bobAcceptedWhileDeclining.dom.page = PageStatus.replaced := by
  decide

/-! ## The endpoint resolver and its override -/

theorem firstPresent_cons (a : Option String) (rest : List (Option String)) :
    firstPresent (a :: rest) = if truthy a then a else firstPresent rest := by
  cases a with
  | none => simp [firstPresent, truthy]
  | some v =>
    by_cases h : v = ""
    · simp [firstPresent, truthy, h]
    · simp [firstPresent, truthy, h]

theorem truthy_getD (a : Option String) (h : truthy a = true) : a = some (a.getD "") := by
  cases a with
  | none => cases h
  | some v => rfl

/-- C6: `getBackendApiUrl` returns the first of the injected value, the query parameter
and the saved override that is present and non-empty, and otherwise the local
development endpoint on the hosts localhost, 127.0.0.1 and 0.0.0.0 and the hosted
endpoint on any other host; a saved override that is the empty string resolves as a
missing one does. -/
theorem getBackendApiUrl_priority (env : Env) (ls : Storage) :
    getBackendApiUrl env ls =
      resolveBySpec env.injected env.apiParam (getItem ls "customBackendUrl") env.hostname ∧
    getBackendApiUrl env (setItem ls "customBackendUrl" "") =
      getBackendApiUrl env (removeItem ls "customBackendUrl") := by
  constructor
  · unfold getBackendApiUrl resolveBySpec
    simp only [firstPresent_cons, firstPresent]
    by_cases h1 : truthy env.injected = true
    · rw [if_pos h1, if_pos h1, truthy_getD _ h1]; rfl
    · rw [if_neg h1, if_neg h1]
      by_cases h2 : truthy env.apiParam = true
      · rw [if_pos h2, if_pos h2, truthy_getD _ h2]; rfl
      · rw [if_neg h2, if_neg h2]
        by_cases h3 : truthy (getItem ls "customBackendUrl") = true
        · rw [if_pos h3, if_pos h3, truthy_getD _ h3]; rfl
        · rw [if_neg h3, if_neg h3]
          simp [or_assoc]
  · unfold getBackendApiUrl
    rw [getItem_setItem_same, getItem_removeItem_same]
    rfl

theorem saveApiSettings_effect (s : AppState) (h : jsTrim s.dom.customApiUrl ≠ "") :
    getItem (saveApiSettings s).localStorage "customBackendUrl" =
      some (jsTrim s.dom.customApiUrl) ∧
    (saveApiSettings s).BACKEND_AUTH_API = jsTrim s.dom.customApiUrl ∧
    (saveApiSettings s).BACKEND_STATS_API = jsTrim s.dom.customApiUrl ++ "/user/statistics" ∧
    (saveApiSettings s).BACKEND_HISTORY_API =
      jsTrim s.dom.customApiUrl ++ "/user/emotion-history" ∧
    (saveApiSettings s).BACKEND_API = s.BACKEND_API := by
  unfold saveApiSettings
  simp [h, record, getItem_setItem_same]

/-- C7, evaluated at the failing input: on a page that resolved the hosted endpoint the
user saves the override http://new.example. The saved override, the auth base, the
statistics endpoint and the history endpoint follow the new url; the chat endpoint
still is the hosted endpoint followed by /chat. -/
theorem saveApiSettings_keeps_chat_endpoint :
    getItem (saveApiSettings overrideTyped).localStorage "customBackendUrl" =
      some "http://new.example" ∧
    (saveApiSettings overrideTyped).BACKEND_AUTH_API = "http://new.example" ∧
    (saveApiSettings overrideTyped).BACKEND_STATS_API =
      "http://new.example" ++ "/user/statistics" ∧
    (saveApiSettings overrideTyped).BACKEND_HISTORY_API =
      "http://new.example" ++ "/user/emotion-history" ∧
    (saveApiSettings overrideTyped).BACKEND_API =
      "https://1332551170-4tuhxe4fzv.ap-guangzhou.tencentscf.com/api" ++ "/chat" ∧
    (saveApiSettings overrideTyped).BACKEND_API ≠ "http://new.example" ++ "/chat" := by
  decide

/-! ## The session store -/

theorem initApp_cases (env : Env) (tick : Tick) (s : AppState) :
    initApp env tick s = { s with dom := { s.dom with
      consentModalActive := true, appPagePointerEvents := "none", appPageOpacity := "0.5" } } ∨
    initApp env tick s = continueInit env tick { s with dom := { s.dom with
      consentModalActive := false, appPagePointerEvents := "auto", appPageOpacity := "1" } } ∨
    initApp env tick s = continueInit env tick s := by
  unfold initApp
  simp only []
  by_cases h1 : truthy (sessionUserId s) = true
  · by_cases h2 : (!truthy (getItem s.localStorage (consentKeyOf (sessionUserId s))) ||
        getItem s.localStorage (consentKeyOf (sessionUserId s)) == some "false") = true
    · left; rw [if_pos h1, if_pos h2]
    · right; left; rw [if_pos h1, if_neg h2]
  · right; right; rw [if_neg h1]

theorem initApp_frame (env : Env) (tick : Tick) (s : AppState) :
    (initApp env tick s).localStorage = s.localStorage ∧
    (initApp env tick s).currentUser = s.currentUser ∧
    (initApp env tick s).dom.loginPageDisplay = s.dom.loginPageDisplay ∧
    (initApp env tick s).dom.appPageDisplay = s.dom.appPageDisplay ∧
    ∃ xs, (initApp env tick s).calls = s.calls ++ xs := by
  rcases initApp_cases env tick s with h | h | h
  · rw [h]
    exact ⟨rfl, rfl, rfl, rfl, [], by simp⟩
  · obtain ⟨mid, -, hc⟩ := continueInit_eq env tick { s with dom := { s.dom with
      consentModalActive := false, appPagePointerEvents := "auto", appPageOpacity := "1" } }
    rw [h, hc]
    exact ⟨rfl, rfl, rfl, rfl, _, rfl⟩
  · obtain ⟨mid, -, hc⟩ := continueInit_eq env tick s
    rw [h, hc]
    exact ⟨rfl, rfl, rfl, rfl, _, rfl⟩

theorem showApp_frame (env : Env) (tick : Tick) (resp : ConsentGet) (s : AppState)
    (uid : String) (h : LoggedInAs s uid) :
    (showApp env tick resp s).currentUser = s.currentUser ∧
    (∀ k : String, k.length < 15 →
      getItem (showApp env tick resp s).localStorage k = getItem s.localStorage k) ∧
    (showApp env tick resp s).dom.loginPageDisplay = "none" ∧
    (showApp env tick resp s).dom.appPageDisplay = "block" ∧
    Call.fetch "GET" (consentGetUrl env s uid) ∈ callsSince s (showApp env tick resp s) := by
  obtain ⟨name, ls, hNone, hSome, hEq⟩ := showApp_loggedIn env tick resp s uid h
  obtain ⟨hLs, hCur, hD1, hD2, xs, hCalls⟩ := initApp_frame env tick { s with
      localStorage := ls
      dom := { s.dom with
        loginPageDisplay := "none", appPageDisplay := "block", userNameDisplay := name }
      calls := s.calls ++ [Call.fetch "GET" (consentGetUrl env s uid)] }
  rw [← hEq] at hLs hCur hD1 hD2 hCalls
  simp only at hLs hCur hD1 hD2 hCalls
  refine ⟨hCur, ?_, hD1, hD2, ?_⟩
  · intro k hk
    rw [hLs]
    cases hd : resp.decision with
    | none => rw [hNone hd]
    | some b =>
      obtain ⟨stamp, hls⟩ := hSome b hd
      have hne := consentKey_ne_short uid k hk
      rw [hls, getItem_setItem_ne _ _ _ _ hne.2, getItem_setItem_ne _ _ _ _ hne.1]
  · have : callsSince s (showApp env tick resp s) =
        [Call.fetch "GET" (consentGetUrl env s uid)] ++ xs := by
      apply callsSince_of_append
      rw [hCalls]; simp
    rw [this]
    simp

theorem windowLoad_session (env : Env) (tick : Tick) (consent : ConsentGet) (ls : Storage)
    (dom : Dom) (tok uid name : String) (ht : getItem ls "token" = some tok)
    (hu : getItem ls "userId" = some uid) (hn : getItem ls "userName" = some name)
    (htne : tok ≠ "") (hune : uid ≠ "") (hnne : name ≠ "") :
    (windowLoad env tick consent (initialState env ls dom)).currentUser =
      some { id := uid, name := name } ∧
    windowLoad env tick consent (initialState env ls dom) =
      showApp env tick consent
        { initialState env ls dom with currentUser := some { id := uid, name := name } } ∧
    (windowLoad env tick consent (initialState env ls dom)).dom.loginPageDisplay = "none" ∧
    (windowLoad env tick consent (initialState env ls dom)).dom.appPageDisplay = "block" ∧
    (∀ k : String, k.length < 15 →
      getItem (windowLoad env tick consent (initialState env ls dom)).localStorage k =
        getItem ls k) := by
  have hEq : windowLoad env tick consent (initialState env ls dom) =
      showApp env tick consent
        { initialState env ls dom with currentUser := some { id := uid, name := name } } := by
    unfold windowLoad
    have e1 : (initialState env ls dom).localStorage = ls := rfl
    simp only [e1, ht, hu, hn]
    simp [truthy, htne, hune, hnne]
  have hL : LoggedInAs
      { initialState env ls dom with currentUser := some { id := uid, name := name } } uid :=
    ⟨hune, rfl, hu⟩
  obtain ⟨hCur, hKeys, hD1, hD2, -⟩ := showApp_frame env tick consent _ uid hL
  rw [hEq]
  exact ⟨hCur, rfl, hD1, hD2, hKeys⟩

/-- Counterexample to C8 as stated: the three keys token, userId and userName are all
present, the token being the empty string, and the restore step yields no session
and shows the login view. -/
theorem windowLoad_no_session_with_all_keys_present :
    getItem [("token", ""), ("userId", "u1"), ("userName", "bob")] "token" ≠ none ∧
    getItem [("token", ""), ("userId", "u1"), ("userName", "bob")] "userId" ≠ none ∧
    getItem [("token", ""), ("userId", "u1"), ("userName", "bob")] "userName" ≠ none ∧
    (windowLoad exampleEnv exampleTick (ConsentGet.ok ConsentField.other none)
      (initialState exampleEnv [("token", ""), ("userId", "u1"), ("userName", "bob")]
        exampleDom)).currentUser = none ∧
    (windowLoad exampleEnv exampleTick (ConsentGet.ok ConsentField.other none)
      (initialState exampleEnv [("token", ""), ("userId", "u1"), ("userName", "bob")]
        exampleDom)).dom.loginPageDisplay = "block" := by
  decide

/-- C8, as amended: for every content of the storage the startup restore step yields
an in-memory session, and proceeds to `showApp`, if and only if the three keys token,
userId and userName are all present with a non-empty value; the session then holds the
stored user id and user name. Otherwise it yields no session, shows the login view,
issues no request and leaves the storage as it is. The step is total. -/
theorem windowLoad_restores_iff_all_keys_truthy (env : Env) (tick : Tick)
    (consent : ConsentGet) (ls : Storage) (dom : Dom) :
    ((windowLoad env tick consent (initialState env ls dom)).currentUser ≠ none ↔
      (truthy (getItem ls "token") = true ∧ truthy (getItem ls "userId") = true ∧
        truthy (getItem ls "userName") = true)) ∧
    (∀ tok uid name, getItem ls "token" = some tok → getItem ls "userId" = some uid →
      getItem ls "userName" = some name → tok ≠ "" → uid ≠ "" → name ≠ "" →
      (windowLoad env tick consent (initialState env ls dom)).currentUser =
        some { id := uid, name := name } ∧
      windowLoad env tick consent (initialState env ls dom) =
        showApp env tick consent
          { initialState env ls dom with currentUser := some { id := uid, name := name } } ∧
      (windowLoad env tick consent (initialState env ls dom)).dom.loginPageDisplay = "none" ∧
      (windowLoad env tick consent (initialState env ls dom)).dom.appPageDisplay = "block") ∧
    ((truthy (getItem ls "token") = false ∨ truthy (getItem ls "userId") = false ∨
        truthy (getItem ls "userName") = false) →
      (windowLoad env tick consent (initialState env ls dom)).currentUser = none ∧
      (windowLoad env tick consent (initialState env ls dom)).dom.loginPageDisplay = "block" ∧
      (windowLoad env tick consent (initialState env ls dom)).dom.appPageDisplay = "none" ∧
      (windowLoad env tick consent (initialState env ls dom)).calls = [] ∧
      (windowLoad env tick consent (initialState env ls dom)).localStorage = ls) := by
  have hYes : ∀ tok uid name, getItem ls "token" = some tok → getItem ls "userId" = some uid →
      getItem ls "userName" = some name → tok ≠ "" → uid ≠ "" → name ≠ "" →
      (windowLoad env tick consent (initialState env ls dom)).currentUser =
        some { id := uid, name := name } ∧
      windowLoad env tick consent (initialState env ls dom) =
        showApp env tick consent
          { initialState env ls dom with currentUser := some { id := uid, name := name } } ∧
      (windowLoad env tick consent (initialState env ls dom)).dom.loginPageDisplay = "none" ∧
      (windowLoad env tick consent (initialState env ls dom)).dom.appPageDisplay = "block" := by
    intro tok uid name ht hu hn htne hune hnne
    obtain ⟨h1, h2, h3, h4, -⟩ :=
      windowLoad_session env tick consent ls dom tok uid name ht hu hn htne hune hnne
    exact ⟨h1, h2, h3, h4⟩
  have hNo : (truthy (getItem ls "token") = false ∨ truthy (getItem ls "userId") = false ∨
        truthy (getItem ls "userName") = false) →
      (windowLoad env tick consent (initialState env ls dom)).currentUser = none ∧
      (windowLoad env tick consent (initialState env ls dom)).dom.loginPageDisplay = "block" ∧
      (windowLoad env tick consent (initialState env ls dom)).dom.appPageDisplay = "none" ∧
      (windowLoad env tick consent (initialState env ls dom)).calls = [] ∧
      (windowLoad env tick consent (initialState env ls dom)).localStorage = ls := by
    intro h
    have hc : (truthy (getItem ls "token") && truthy (getItem ls "userId") &&
        truthy (getItem ls "userName")) = false := by
      rcases h with h | h | h <;> simp [h]
    unfold windowLoad
    have e1 : (initialState env ls dom).localStorage = ls := rfl
    simp only [e1, hc]
    exact ⟨rfl, rfl, rfl, rfl, rfl⟩
  refine ⟨?_, hYes, hNo⟩
  constructor
  · intro hcur
    by_contra hn
    have h : truthy (getItem ls "token") = false ∨ truthy (getItem ls "userId") = false ∨
        truthy (getItem ls "userName") = false := by
      by_cases a : truthy (getItem ls "token") = true
      · by_cases b : truthy (getItem ls "userId") = true
        · by_cases c : truthy (getItem ls "userName") = true
          · exact absurd ⟨a, b, c⟩ hn
          · exact Or.inr (Or.inr (by simpa using c))
        · exact Or.inr (Or.inl (by simpa using b))
      · exact Or.inl (by simpa using a)
    exact hcur (hNo h).1
  · rintro ⟨a, b, c⟩
    have ha := truthy_getD _ a
    have hb := truthy_getD _ b
    have hc := truthy_getD _ c
    have hne : ∀ o : Option String, truthy o = true → o.getD "" ≠ "" := by
      intro o ho
      cases o with
      | none => cases ho
      | some v => simpa [truthy] using ho
    rw [(hYes _ _ _ ha hb hc (hne _ a) (hne _ b) (hne _ c)).1]
    simp

/-- Witness of C8, as amended: a storage holding a complete session of user u1. -/
theorem windowLoad_restores_iff_all_keys_truthy_witness :
    (windowLoad exampleEnv exampleTick ConsentGet.transportError
      (initialState exampleEnv [("token", "t0"), ("userId", "u1"), ("userName", "bob")]
        exampleDom)).currentUser = some { id := "u1", name := "bob" } :=
  ((windowLoad_restores_iff_all_keys_truthy exampleEnv exampleTick ConsentGet.transportError
    [("token", "t0"), ("userId", "u1"), ("userName", "bob")] exampleDom).2.1
      "t0" "u1" "bob" (by decide) (by decide) (by decide) (by decide) (by decide)
      (by decide)).1

theorem handleAuthSubmit_success (env : Env) (tick : Tick) (consent : ConsentGet)
    (s : AppState) (uid name tok : String) (hValid : passesLocalValidation s = true)
    (hu : uid ≠ "") :
    (handleAuthSubmit env tick (AuthResponse.success uid name tok) consent s).currentUser =
      some { id := uid, name := name } ∧
    getItem (handleAuthSubmit env tick (AuthResponse.success uid name tok)
      consent s).localStorage "token" = some tok ∧
    getItem (handleAuthSubmit env tick (AuthResponse.success uid name tok)
      consent s).localStorage "userId" = some uid ∧
    getItem (handleAuthSubmit env tick (AuthResponse.success uid name tok)
      consent s).localStorage "userName" = some name := by
  simp only [passesLocalValidation, Bool.and_eq_true, Bool.or_eq_true, decide_eq_true_eq,
    beq_iff_eq] at hValid
  obtain ⟨⟨h3, h6⟩, hMode⟩ := hValid
  have key : ∀ s1 : AppState,
      s1.localStorage = setItem (setItem (setItem s.localStorage "token" tok) "userId" uid)
        "userName" name →
      s1.currentUser = some { id := uid, name := name } →
      (showApp env tick consent s1).currentUser = some { id := uid, name := name } ∧
      getItem (showApp env tick consent s1).localStorage "token" = some tok ∧
      getItem (showApp env tick consent s1).localStorage "userId" = some uid ∧
      getItem (showApp env tick consent s1).localStorage "userName" = some name := by
    intro s1 hls hcu
    have hL : LoggedInAs s1 uid := by
      refine ⟨hu, by rw [hcu]; rfl, ?_⟩
      rw [hls, getItem_setItem_ne _ _ _ _ (by decide), getItem_setItem_same]
    obtain ⟨hCur, hKeys, -⟩ := showApp_frame env tick consent s1 uid hL
    refine ⟨by rw [hCur, hcu], ?_, ?_, ?_⟩
    · rw [hKeys "token" (by decide), hls, getItem_setItem_ne _ _ _ _ (by decide),
        getItem_setItem_ne _ _ _ _ (by decide), getItem_setItem_same]
    · rw [hKeys "userId" (by decide), hls, getItem_setItem_ne _ _ _ _ (by decide),
        getItem_setItem_same]
    · rw [hKeys "userName" (by decide), hls, getItem_setItem_same]
  have h3n : ¬ jsLength (jsTrim s.dom.authUsername) < 3 := by omega
  have h6n : ¬ jsLength s.dom.authPassword < 6 := by omega
  unfold handleAuthSubmit
  simp only [clearAuthErrors, h3n, h6n, if_false]
  by_cases hm : s.isLoginMode = true
  · simp only [hm, if_true, handleAuthResponse, record]
    exact key _ rfl rfl
  · have hpw : s.dom.authPassword = s.dom.authConfirm := by
      rcases hMode with h | h
      · exact absurd h hm
      · exact h
    simp only [hm, hpw, bne_self_eq_false, Bool.false_eq_true, if_false, handleAuthResponse,
      record]
    exact key _ rfl rfl


/-- Counterexample to C9 as stated: a login succeeds with the user id u1, the user name
bob and the empty string as token; the session is established, and the restore that
follows a reload of the page returns no session. -/
theorem establish_with_empty_token_is_not_restored :
    (handleAuthSubmit exampleEnv exampleTick (AuthResponse.success "u1" "bob" "")
      (ConsentGet.ok ConsentField.other none) loginFormFilled).currentUser =
      some { id := "u1", name := "bob" } ∧
    (windowLoad exampleEnv exampleTick (ConsentGet.ok ConsentField.other none)
      (initialState exampleEnv
        (handleAuthSubmit exampleEnv exampleTick (AuthResponse.success "u1" "bob" "")
          (ConsentGet.ok ConsentField.other none) loginFormFilled).localStorage
        exampleDom)).currentUser = none := by
  decide

/-- C9, as amended: for every session whose user id, user name and token are non-empty
strings, established by a successful login or registration, the restore that follows a
reload of the page returns a session with the same user id and user name, and the stored
token, user id and user name are the written ones; a further reload and restore gives
the same result. -/
theorem establish_then_restore_roundtrip (env : Env) (tick : Tick) (consent : ConsentGet)
    (s : AppState) (uid name tok : String) (hValid : passesLocalValidation s = true)
    (hu : uid ≠ "") (hn : name ≠ "") (ht : tok ≠ "") :
    (handleAuthSubmit env tick (AuthResponse.success uid name tok) consent s).currentUser =
      some { id := uid, name := name } ∧
    (∀ (env2 : Env) (tick2 : Tick) (consent2 : ConsentGet) (dom2 : Dom),
      (windowLoad env2 tick2 consent2 (initialState env2
        (handleAuthSubmit env tick (AuthResponse.success uid name tok) consent s).localStorage
        dom2)).currentUser = some { id := uid, name := name } ∧
      getItem (windowLoad env2 tick2 consent2 (initialState env2
        (handleAuthSubmit env tick (AuthResponse.success uid name tok) consent s).localStorage
        dom2)).localStorage "token" = some tok ∧
      getItem (windowLoad env2 tick2 consent2 (initialState env2
        (handleAuthSubmit env tick (AuthResponse.success uid name tok) consent s).localStorage
        dom2)).localStorage "userId" = some uid ∧
      getItem (windowLoad env2 tick2 consent2 (initialState env2
        (handleAuthSubmit env tick (AuthResponse.success uid name tok) consent s).localStorage
        dom2)).localStorage "userName" = some name ∧
      (∀ (env3 : Env) (tick3 : Tick) (consent3 : ConsentGet) (dom3 : Dom),
        (windowLoad env3 tick3 consent3 (initialState env3
          (windowLoad env2 tick2 consent2 (initialState env2
            (handleAuthSubmit env tick (AuthResponse.success uid name tok) consent
              s).localStorage dom2)).localStorage dom3)).currentUser =
          some { id := uid, name := name } ∧
        getItem (windowLoad env3 tick3 consent3 (initialState env3
          (windowLoad env2 tick2 consent2 (initialState env2
            (handleAuthSubmit env tick (AuthResponse.success uid name tok) consent
              s).localStorage dom2)).localStorage dom3)).localStorage "token" = some tok)) := by
  obtain ⟨hCur, hT, hU, hN⟩ := handleAuthSubmit_success env tick consent s uid name tok hValid hu
  refine ⟨hCur, ?_⟩
  intro env2 tick2 consent2 dom2
  obtain ⟨hCur2, -, -, -, hKeys2⟩ := windowLoad_session env2 tick2 consent2 _ dom2 tok uid name
    hT hU hN ht hu hn
  have hT2 := (hKeys2 "token" (by decide)).trans hT
  have hU2 := (hKeys2 "userId" (by decide)).trans hU
  have hN2 := (hKeys2 "userName" (by decide)).trans hN
  refine ⟨hCur2, hT2, hU2, hN2, ?_⟩
  intro env3 tick3 consent3 dom3
  obtain ⟨hCur3, -, -, -, hKeys3⟩ := windowLoad_session env3 tick3 consent3 _ dom3 tok uid name
    hT2 hU2 hN2 ht hu hn
  exact ⟨hCur3, (hKeys3 "token" (by decide)).trans hT2⟩

/-- Witness of C9, as amended: the login of user bob with the token t1. -/
theorem establish_then_restore_roundtrip_witness :
    (windowLoad exampleEnv exampleTick ConsentGet.transportError (initialState exampleEnv
      (handleAuthSubmit exampleEnv exampleTick (AuthResponse.success "u1" "bob" "t1")
        (ConsentGet.ok ConsentField.other none) loginFormFilled).localStorage
      exampleDom)).currentUser = some { id := "u1", name := "bob" } :=
  ((establish_then_restore_roundtrip exampleEnv exampleTick
    (ConsentGet.ok ConsentField.other none) loginFormFilled "u1" "bob" "t1"
    (by decide) (by decide) (by decide) (by decide)).2
      exampleEnv exampleTick ConsentGet.transportError exampleDom).1

/-! ## Rounding to doubles -/

theorem roundHalfEven_le (y : ℚ) : (roundHalfEven y : ℚ) ≤ y + 1 / 2 := by
  unfold roundHalfEven
  have h1 := Int.floor_le y
  have h2 := Int.lt_floor_add_one y
  simp only
  split_ifs with a b c
  · linarith
  · push_cast; linarith
  · linarith
  · have : y - ⌊y⌋ = 1 / 2 := le_antisymm (not_lt.mp b) (not_lt.mp a)
    push_cast; linarith

theorem le_roundHalfEven (y : ℚ) : y - 1 / 2 ≤ (roundHalfEven y : ℚ) := by
  unfold roundHalfEven
  have h1 := Int.floor_le y
  have h2 := Int.lt_floor_add_one y
  simp only
  split_ifs with a b c
  · linarith
  · push_cast; linarith
  · have : y - ⌊y⌋ = 1 / 2 := le_antisymm (not_lt.mp b) (not_lt.mp a)
    linarith
  · push_cast; linarith

theorem roundHalfEven_intCast (n : Int) : roundHalfEven (n : ℚ) = n := by
  unfold roundHalfEven
  simp

theorem roundHalfEven_mono_int_le (y : ℚ) (n : Int) (h : (n : ℚ) ≤ y) :
    n ≤ roundHalfEven y := by
  have hf : n ≤ ⌊y⌋ := Int.le_floor.mpr h
  unfold roundHalfEven
  simp only
  split_ifs <;> omega

theorem roundHalfEven_le_int (y : ℚ) (n : Int) (h : y ≤ (n : ℚ)) :
    roundHalfEven y ≤ n := by
  rcases eq_or_lt_of_le h with h | h
  · rw [h, roundHalfEven_intCast]
  · have hf : ⌊y⌋ < n := Int.floor_lt.mpr h
    have hf2 : ⌊y⌋ + 1 ≤ n := hf
    unfold roundHalfEven
    simp only
    split_ifs <;> omega

theorem toDouble_of_pos (x : ℚ) (hx : 0 < x) :
    toDouble x = roundHalfEven (x / 2 ^ (Int.log 2 x - 52)) * 2 ^ (Int.log 2 x - 52) := by
  unfold toDouble
  simp only [hx.ne', if_false, abs_of_pos hx]

theorem two_zpow_log_le (x : ℚ) (hx : 0 < x) : (2 : ℚ) ^ Int.log 2 x ≤ x := by
  have := Int.zpow_log_le_self (b := 2) (by norm_num) hx
  simpa using this

theorem lt_two_zpow_log_succ (x : ℚ) : x < (2 : ℚ) ^ (Int.log 2 x + 1) := by
  have := Int.lt_zpow_succ_log_self (b := 2) (by norm_num) x
  simpa using this

theorem le_log_of_two_zpow_le (x : ℚ) (e : Int) (hx : 0 < x) (h : (2 : ℚ) ^ e ≤ x) :
    e ≤ Int.log 2 x := by
  have := (Int.zpow_le_iff_le_log (b := 2) (by norm_num) (x := e) hx).1 (by simpa using h)
  exact this

theorem log_lt_of_lt_two_zpow (x : ℚ) (e : Int) (hx : 0 < x) (h : x < (2 : ℚ) ^ e) :
    Int.log 2 x < e := by
  have := (Int.lt_zpow_iff_log_lt (b := 2) (by norm_num) (x := e) hx).1 (by simpa using h)
  exact this

theorem two_zpow_succ_eq (e : Int) : (2 : ℚ) ^ (e + 1) = (2 : ℚ) ^ (53 : Int) * 2 ^ (e - 52) := by
  rw [← zpow_add₀ (by norm_num : (2 : ℚ) ≠ 0)]
  congr 1
  ring

theorem two_zpow_eq (e : Int) : (2 : ℚ) ^ e = (2 : ℚ) ^ (52 : Int) * 2 ^ (e - 52) := by
  rw [← zpow_add₀ (by norm_num : (2 : ℚ) ≠ 0)]
  congr 1
  ring

/-- A double `c` of exponent `e` is a lower bound of `toDouble x` whenever it is one of `x`. -/
theorem le_toDouble_of_le (c : ℚ) (e m : Int) (hc1 : (2 : ℚ) ^ e ≤ c)
    (hc2 : c < (2 : ℚ) ^ (e + 1)) (hm : c = m * 2 ^ (e - 52)) (x : ℚ) (h : c ≤ x) :
    c ≤ toDouble x := by
  have hcpos : 0 < c := lt_of_lt_of_le (zpow_pos (by norm_num) _) hc1
  have hx : 0 < x := lt_of_lt_of_le hcpos h
  rw [toDouble_of_pos x hx]
  have hu : (0 : ℚ) < 2 ^ (Int.log 2 x - 52) := zpow_pos (by norm_num) _
  have hle : e ≤ Int.log 2 x := le_log_of_two_zpow_le x e hx (le_trans hc1 h)
  rcases eq_or_lt_of_le hle with heq | hlt
  · rw [← heq] at hu ⊢
    have h1 : (m : ℚ) ≤ x / 2 ^ (e - 52) := by
      rw [le_div_iff₀ hu, ← hm]; exact h
    have h2 := roundHalfEven_mono_int_le _ m h1
    have h3 : (m : ℚ) ≤ (roundHalfEven (x / 2 ^ (e - 52)) : ℚ) := by exact_mod_cast h2
    rw [hm]
    exact mul_le_mul_of_nonneg_right h3 hu.le
  · have hx1 := two_zpow_log_le x hx
    have h1 : (((2 : Int) ^ 52 : Int) : ℚ) ≤ x / 2 ^ (Int.log 2 x - 52) := by
      rw [le_div_iff₀ hu]
      have := two_zpow_eq (Int.log 2 x)
      push_cast
      calc (2 : ℚ) ^ 52 * 2 ^ (Int.log 2 x - 52) = 2 ^ Int.log 2 x := by
            rw [this]; norm_num
        _ ≤ x := hx1
    have h2 := roundHalfEven_mono_int_le _ _ h1
    have h3 : (((2 : Int) ^ 52 : Int) : ℚ) ≤
        (roundHalfEven (x / 2 ^ (Int.log 2 x - 52)) : ℚ) := by exact_mod_cast h2
    have h4 : (2 : ℚ) ^ Int.log 2 x ≤
        roundHalfEven (x / 2 ^ (Int.log 2 x - 52)) * 2 ^ (Int.log 2 x - 52) := by
      calc (2 : ℚ) ^ Int.log 2 x = (((2 : Int) ^ 52 : Int) : ℚ) * 2 ^ (Int.log 2 x - 52) := by
            rw [two_zpow_eq (Int.log 2 x)]; norm_num
        _ ≤ _ := mul_le_mul_of_nonneg_right h3 hu.le
    have h5 : (2 : ℚ) ^ (e + 1) ≤ 2 ^ Int.log 2 x :=
      zpow_le_zpow_right₀ (by norm_num) (by omega)
    linarith

/-- A double `c` of exponent `e` is an upper bound of `toDouble x` whenever it is one of `x`. -/
theorem toDouble_le_of_le (c : ℚ) (e m : Int) (hc1 : (2 : ℚ) ^ e ≤ c)
    (hc2 : c < (2 : ℚ) ^ (e + 1)) (hm : c = m * 2 ^ (e - 52)) (x : ℚ) (h : x ≤ c) :
    toDouble x ≤ c := by
  have hcpos : 0 < c := lt_of_lt_of_le (zpow_pos (by norm_num) _) hc1
  rcases lt_trichotomy x 0 with hneg | hzero | hx
  · unfold toDouble
    simp only [hneg.ne, if_false]
    have hu : (0 : ℚ) < 2 ^ (Int.log 2 |x| - 52) := zpow_pos (by norm_num) _
    have h1 : x / 2 ^ (Int.log 2 |x| - 52) ≤ ((0 : Int) : ℚ) := by
      rw [div_le_iff₀ hu]; simp; exact hneg.le
    have h2 := roundHalfEven_le_int _ 0 h1
    have h3 : (roundHalfEven (x / 2 ^ (Int.log 2 |x| - 52)) : ℚ) ≤ 0 := by exact_mod_cast h2
    have := mul_nonpos_of_nonpos_of_nonneg h3 hu.le
    linarith
  · rw [hzero]
    unfold toDouble
    simp
    exact hcpos.le
  · rw [toDouble_of_pos x hx]
    have hu : (0 : ℚ) < 2 ^ (Int.log 2 x - 52) := zpow_pos (by norm_num) _
    have hlt : Int.log 2 x < e + 1 := log_lt_of_lt_two_zpow x (e + 1) hx (lt_of_le_of_lt h hc2)
    have hle : Int.log 2 x ≤ e := by omega
    rcases eq_or_lt_of_le hle with heq | hlt2
    · rw [heq] at hu ⊢
      have h1 : x / 2 ^ (e - 52) ≤ (m : ℚ) := by
        rw [div_le_iff₀ hu, ← hm]; exact h
      have h2 := roundHalfEven_le_int _ m h1
      have h3 : (roundHalfEven (x / 2 ^ (e - 52)) : ℚ) ≤ (m : ℚ) := by exact_mod_cast h2
      rw [hm]
      exact mul_le_mul_of_nonneg_right h3 hu.le
    · have hx2 := lt_two_zpow_log_succ x
      have h1 : x / 2 ^ (Int.log 2 x - 52) ≤ (((2 : Int) ^ 53 : Int) : ℚ) := by
        rw [div_le_iff₀ hu]
        push_cast
        calc x ≤ (2 : ℚ) ^ (Int.log 2 x + 1) := hx2.le
          _ = 2 ^ 53 * 2 ^ (Int.log 2 x - 52) := by
            rw [two_zpow_succ_eq (Int.log 2 x)]; norm_num
      have h2 := roundHalfEven_le_int _ _ h1
      have h3 : (roundHalfEven (x / 2 ^ (Int.log 2 x - 52)) : ℚ) ≤
          (((2 : Int) ^ 53 : Int) : ℚ) := by exact_mod_cast h2
      have h4 : roundHalfEven (x / 2 ^ (Int.log 2 x - 52)) * 2 ^ (Int.log 2 x - 52) ≤
          (2 : ℚ) ^ (Int.log 2 x + 1) := by
        calc _ ≤ (((2 : Int) ^ 53 : Int) : ℚ) * 2 ^ (Int.log 2 x - 52) :=
              mul_le_mul_of_nonneg_right h3 hu.le
          _ = (2 : ℚ) ^ (Int.log 2 x + 1) := by
            rw [two_zpow_succ_eq (Int.log 2 x)]; norm_num
      have h5 : (2 : ℚ) ^ (Int.log 2 x + 1) ≤ 2 ^ e :=
        zpow_le_zpow_right₀ (by norm_num) (by omega)
      linarith

theorem toDouble_nonneg (x : ℚ) (h : 0 ≤ x) : 0 ≤ toDouble x := by
  rcases eq_or_lt_of_le h with h0 | hx
  · rw [← h0]; unfold toDouble; simp
  · rw [toDouble_of_pos x hx]
    have hu : (0 : ℚ) < 2 ^ (Int.log 2 x - 52) := zpow_pos (by norm_num) _
    have h1 : ((0 : Int) : ℚ) ≤ x / 2 ^ (Int.log 2 x - 52) := by
      simp; exact div_nonneg h hu.le
    have h2 := roundHalfEven_mono_int_le _ 0 h1
    have h3 : (0 : ℚ) ≤ (roundHalfEven (x / 2 ^ (Int.log 2 x - 52)) : ℚ) := by exact_mod_cast h2
    exact mul_nonneg h3 hu.le

/-- The whole days the script computes are at least `j` when the exact ones are. -/
theorem days_ge (a j e1 m1 : Int) (hj1 : 5 ≤ j) (hj2 : j ≤ 7)
    (hc1 : (2 : ℚ) ^ e1 ≤ ((j * 86400000 : Int) : ℚ))
    (hc2 : ((j * 86400000 : Int) : ℚ) < (2 : ℚ) ^ (e1 + 1))
    (hm : ((j * 86400000 : Int) : ℚ) = m1 * 2 ^ (e1 - 52))
    (h : j * 86400000 ≤ a) :
    j ≤ Int.floor (toDouble (toDouble (a : ℚ) / (1000 * 60 * 60 * 24))) := by
  have ha : ((j * 86400000 : Int) : ℚ) ≤ (a : ℚ) := by exact_mod_cast h
  have h1 := le_toDouble_of_le _ e1 m1 hc1 hc2 hm (a : ℚ) ha
  have h2 : (j : ℚ) ≤ toDouble (a : ℚ) / (1000 * 60 * 60 * 24) := by
    rw [le_div_iff₀ (by norm_num)]
    push_cast at h1
    linarith
  have hj1q : (5 : ℚ) ≤ (j : ℚ) := by exact_mod_cast hj1
  have hj2q : (j : ℚ) ≤ 7 := by exact_mod_cast hj2
  have h3 := le_toDouble_of_le (j : ℚ) 2 (j * 2 ^ 50)
    (by norm_num; linarith) (by norm_num; linarith) (by push_cast; norm_num; ring) _ h2
  exact Int.le_floor.mpr h3

/-- The whole days the script computes are below `j` when the exact ones are. -/
theorem days_lt (a j e1 m1 : Int) (hj1 : 5 ≤ j) (hj2 : j ≤ 7)
    (hc1 : (2 : ℚ) ^ e1 ≤ ((j * 86400000 - 1 : Int) : ℚ))
    (hc2 : ((j * 86400000 - 1 : Int) : ℚ) < (2 : ℚ) ^ (e1 + 1))
    (hm : ((j * 86400000 - 1 : Int) : ℚ) = m1 * 2 ^ (e1 - 52))
    (h : a < j * 86400000) :
    Int.floor (toDouble (toDouble (a : ℚ) / (1000 * 60 * 60 * 24))) < j := by
  have ha : (a : ℚ) ≤ ((j * 86400000 - 1 : Int) : ℚ) := by
    have : a ≤ j * 86400000 - 1 := by omega
    exact_mod_cast this
  have h1 := toDouble_le_of_le _ e1 m1 hc1 hc2 hm (a : ℚ) ha
  have hj1q : (5 : ℚ) ≤ (j : ℚ) := by exact_mod_cast hj1
  have hj2q : (j : ℚ) ≤ 7 := by exact_mod_cast hj2
  have h2 : toDouble (a : ℚ) / (1000 * 60 * 60 * 24) ≤ (j : ℚ) - 1 / 2 ^ 27 := by
    rw [div_le_iff₀ (by norm_num)]
    push_cast at h1
    have : ((j : ℚ) - 1 / 2 ^ 27) * (1000 * 60 * 60 * 24) = j * 86400000 - 86400000 / 2 ^ 27 := by
      ring
    rw [this]
    have : (86400000 : ℚ) / 2 ^ 27 ≤ 1 := by norm_num
    linarith
  have h3 := toDouble_le_of_le ((j : ℚ) - 1 / 2 ^ 27) 2 (j * 2 ^ 50 - 2 ^ 23)
    (by norm_num; linarith) (by norm_num; linarith) (by push_cast; norm_num; ring) _ h2
  rw [Int.floor_lt]
  have : (0 : ℚ) < 1 / 2 ^ 27 := by norm_num
  linarith

theorem days_ge_five (a : Int) (h : 5 * 86400000 ≤ a) :
    5 ≤ Int.floor (toDouble (toDouble (a : ℚ) / (1000 * 60 * 60 * 24))) :=
  days_ge a 5 28 (432000000 * 2 ^ 24) (by norm_num) (by norm_num) (by norm_num)
    (by norm_num) (by norm_num) h

theorem days_ge_six (a : Int) (h : 6 * 86400000 ≤ a) :
    6 ≤ Int.floor (toDouble (toDouble (a : ℚ) / (1000 * 60 * 60 * 24))) :=
  days_ge a 6 28 (518400000 * 2 ^ 24) (by norm_num) (by norm_num) (by norm_num)
    (by norm_num) (by norm_num) h

theorem days_ge_seven (a : Int) (h : 7 * 86400000 ≤ a) :
    7 ≤ Int.floor (toDouble (toDouble (a : ℚ) / (1000 * 60 * 60 * 24))) :=
  days_ge a 7 29 (604800000 * 2 ^ 23) (by norm_num) (by norm_num) (by norm_num)
    (by norm_num) (by norm_num) h

theorem days_lt_five (a : Int) (h : a < 5 * 86400000) :
    Int.floor (toDouble (toDouble (a : ℚ) / (1000 * 60 * 60 * 24))) < 5 :=
  days_lt a 5 28 (431999999 * 2 ^ 24) (by norm_num) (by norm_num) (by norm_num)
    (by norm_num) (by norm_num) h

theorem days_lt_six (a : Int) (h : a < 6 * 86400000) :
    Int.floor (toDouble (toDouble (a : ℚ) / (1000 * 60 * 60 * 24))) < 6 :=
  days_lt a 6 28 (518399999 * 2 ^ 24) (by norm_num) (by norm_num) (by norm_num)
    (by norm_num) (by norm_num) h

theorem days_lt_seven (a : Int) (h : a < 7 * 86400000) :
    Int.floor (toDouble (toDouble (a : ℚ) / (1000 * 60 * 60 * 24))) < 7 :=
  days_lt a 7 29 (604799999 * 2 ^ 23) (by norm_num) (by norm_num) (by norm_num)
    (by norm_num) (by norm_num) h

/-- The threshold the script computes lies between 5 and 7, both included. -/
theorem surveyInterval_bounds (r : ℚ) (h0 : 0 ≤ r) (h1 : r < 1) :
    5 ≤ toDouble (5 + toDouble (r * 2)) ∧ toDouble (5 + toDouble (r * 2)) ≤ 7 := by
  have hx0 : 0 ≤ toDouble (r * 2) := toDouble_nonneg _ (by linarith)
  have hx2 : toDouble (r * 2) ≤ 2 :=
    toDouble_le_of_le 2 1 (2 ^ 52) (by norm_num) (by norm_num) (by norm_num) _ (by linarith)
  constructor
  · exact le_toDouble_of_le 5 2 (5 * 2 ^ 50) (by norm_num) (by norm_num) (by norm_num) _
      (by linarith)
  · exact toDouble_le_of_le 7 2 (7 * 2 ^ 50) (by norm_num) (by norm_num) (by norm_num) _
      (by linarith)

/-- With respect to a threshold between 5 and 7, the whole days the script computes
decide as the exact whole days do. -/
theorem days_decision (a : Int) (t : ℚ) (ht1 : 5 ≤ t) (ht2 : t ≤ 7) :
    (t ≤ ((Int.floor (toDouble (toDouble (a : ℚ) / (1000 * 60 * 60 * 24))) : Int) : ℚ)) ↔
      t ≤ ((a / 86400000 : Int) : ℚ) := by
  have hdiv : a / 86400000 * 86400000 ≤ a := Int.ediv_mul_le a (by norm_num)
  have hdiv2 : a < (a / 86400000 + 1) * 86400000 := Int.lt_ediv_add_one_mul_self a (by norm_num)
  rcases lt_or_le (a / 86400000) 5 with hk | hk
  · have ha : a < 5 * 86400000 := by omega
    have hD := days_lt_five a ha
    have hDq : ((Int.floor (toDouble (toDouble (a : ℚ) / (1000 * 60 * 60 * 24))) : Int) : ℚ)
        < 5 := by exact_mod_cast hD
    have hkq : ((a / 86400000 : Int) : ℚ) < 5 := by exact_mod_cast hk
    constructor <;> intro h <;> linarith
  · rcases lt_or_le (a / 86400000) 7 with hk7 | hk7
    · have hcase : a / 86400000 = 5 ∨ a / 86400000 = 6 := by omega
      rcases hcase with h5 | h6
      · have hD1 := days_ge_five a (by omega)
        have hD2 := days_lt_six a (by omega)
        have hD : Int.floor (toDouble (toDouble (a : ℚ) / (1000 * 60 * 60 * 24))) = 5 := by
          omega
        rw [hD, h5]
      · have hD1 := days_ge_six a (by omega)
        have hD2 := days_lt_seven a (by omega)
        have hD : Int.floor (toDouble (toDouble (a : ℚ) / (1000 * 60 * 60 * 24))) = 6 := by
          omega
        rw [hD, h6]
    · have ha : 7 * 86400000 ≤ a := by omega
      have hD := days_ge_seven a ha
      have hDq : (7 : ℚ) ≤
          ((Int.floor (toDouble (toDouble (a : ℚ) / (1000 * 60 * 60 * 24))) : Int) : ℚ) := by
        exact_mod_cast hD
      have hkq : (7 : ℚ) ≤ ((a / 86400000 : Int) : ℚ) := by exact_mod_cast hk7
      constructor <;> intro h <;> linarith

/-! ## The survey scheduler -/

theorem roundHalfEven_half_of_even (n : Int) (h : n % 2 = 0) :
    roundHalfEven ((n : ℚ) + 1 / 2) = n := by
  have hf : ⌊(n : ℚ) + 1 / 2⌋ = n := by
    rw [Int.floor_eq_iff]
    constructor <;> linarith
  unfold roundHalfEven
  simp only [hf]
  have hd : (n : ℚ) + 1 / 2 - (n : ℚ) = 1 / 2 := by ring
  rw [hd]
  simp [h]

theorem log_two_of_binade (x : ℚ) (e : Int) (h1 : (2 : ℚ) ^ e ≤ x) (h2 : x < (2 : ℚ) ^ (e + 1)) :
    Int.log 2 x = e := by
  have hx : 0 < x := lt_of_lt_of_le (zpow_pos (by norm_num) _) h1
  have a := le_log_of_two_zpow_le x e hx h1
  have b := log_lt_of_lt_two_zpow x (e + 1) hx h2
  omega

/-- The double sum 5 + (1/2 + 2^-52) * 2 is 6: the exact sum 6 + 2^-51 lies half way
between the doubles 6 and 6 + 2^-50 and the tie goes to 6. -/
theorem surveyInterval_at_tie :
    toDouble (5 + toDouble ((1 / 2 + 1 / 2 ^ 52) * 2)) = 6 := by
  have hx : toDouble ((1 / 2 + 1 / 2 ^ 52) * 2) = 1 + 1 / 2 ^ 51 := by
    apply le_antisymm
    · exact toDouble_le_of_le (1 + 1 / 2 ^ 51) 0 (2 ^ 52 + 2) (by norm_num) (by norm_num)
        (by norm_num) _ (by norm_num)
    · exact le_toDouble_of_le (1 + 1 / 2 ^ 51) 0 (2 ^ 52 + 2) (by norm_num) (by norm_num)
        (by norm_num) _ (by norm_num)
  rw [hx]
  have hpos : (0 : ℚ) < 5 + (1 + 1 / 2 ^ 51) := by norm_num
  rw [toDouble_of_pos _ hpos, log_two_of_binade _ 2 (by norm_num) (by norm_num)]
  have hq : (5 + (1 + 1 / 2 ^ 51) : ℚ) / 2 ^ ((2 : Int) - 52) =
      (((6 * 2 ^ 50 : Int) : ℚ)) + 1 / 2 := by
    norm_num
  rw [hq, roundHalfEven_half_of_even _ (by norm_num)]
  norm_num

theorem checkAndShowSurvey_trace (env : Env) (tick : Tick) (s : AppState)
    (ts : String) (lastDate : Int)
    (hTs : getItem s.localStorage "last_survey_date" = some ts) (hne : ts ≠ "")
    (hParse : env.dateParse ts = some lastDate)
    (h0 : 0 ≤ tick.random) (h1 : tick.random < 1) :
    (checkAndShowSurvey env tick s).calls =
      s.calls ++ Call.checkAndShowSurvey ::
        (if toDouble (5 + toDouble (tick.random * 2)) ≤
            (((tick.ms - lastDate) / 86400000 : Int) : ℚ)
          then [Call.setTimeout Timer.showSurvey 2000] else []) := by
  obtain ⟨hb1, hb2⟩ := surveyInterval_bounds tick.random h0 h1
  have hdec := days_decision (tick.ms - lastDate) _ hb1 hb2
  unfold checkAndShowSurvey
  have e1 : (record Call.checkAndShowSurvey s).localStorage = s.localStorage := rfl
  have htr : truthy (some ts) = true := by simp [truthy, hne]
  have hcast : (tick.ms : ℚ) - (lastDate : ℚ) = ((tick.ms - lastDate : Int) : ℚ) := by
    push_cast; ring
  simp only [e1, hTs, htr, Option.getD_some, hParse, Bool.not_true,
    Bool.false_eq_true, if_false, ge_iff_le, hcast]
  by_cases hc : toDouble (5 + toDouble (tick.random * 2)) ≤
      (((tick.ms - lastDate) / 86400000 : Int) : ℚ)
  · rw [if_pos (hdec.2 hc), if_pos hc]
    simp [record]
  · rw [if_neg (fun h => hc (hdec.1 h)), if_neg hc]
    simp [record]

/-- C10, as amended: when a prior survey timestamp exists and parses to a date, for every
random draw r with 0 ≤ r < 1 the trace of `checkAndShowSurvey` gains the 2000 ms timer of
the survey prompt exactly when the elapsed whole days, the floor of the millisecond
difference divided by 86400000, are at least the threshold the script computes: the
double sum 5 + r * 2, a number between 5 and 7. So no timer is set when the days are
fewer than 5 and the timer is set when they are at least 7. -/
theorem checkAndShowSurvey_threshold (env : Env) (tick : Tick) (s : AppState)
    (ts : String) (lastDate : Int)
    (hTs : getItem s.localStorage "last_survey_date" = some ts) (hne : ts ≠ "")
    (hParse : env.dateParse ts = some lastDate)
    (h0 : 0 ≤ tick.random) (h1 : tick.random < 1) :
    (checkAndShowSurvey env tick s).calls =
      s.calls ++ Call.checkAndShowSurvey ::
        (if toDouble (5 + toDouble (tick.random * 2)) ≤
            (((tick.ms - lastDate) / 86400000 : Int) : ℚ)
          then [Call.setTimeout Timer.showSurvey 2000] else []) ∧
    5 ≤ toDouble (5 + toDouble (tick.random * 2)) ∧
    toDouble (5 + toDouble (tick.random * 2)) ≤ 7 ∧
    ((tick.ms - lastDate) / 86400000 < 5 →
      (checkAndShowSurvey env tick s).calls = s.calls ++ [Call.checkAndShowSurvey]) ∧
    (7 ≤ (tick.ms - lastDate) / 86400000 →
      (checkAndShowSurvey env tick s).calls =
        s.calls ++ [Call.checkAndShowSurvey, Call.setTimeout Timer.showSurvey 2000]) ∧
    (tick.ms - lastDate) / 86400000 =
      Int.floor (((tick.ms - lastDate : Int) : ℚ) / 86400000) := by
  have hGen := checkAndShowSurvey_trace env tick s ts lastDate hTs hne hParse h0 h1
  obtain ⟨hb1, hb2⟩ := surveyInterval_bounds tick.random h0 h1
  refine ⟨hGen, hb1, hb2, ?_, ?_, ?_⟩
  · intro hlt
    rw [hGen, if_neg]
    intro hle
    have : (((tick.ms - lastDate) / 86400000 : Int) : ℚ) < 5 := by exact_mod_cast hlt
    linarith
  · intro hge
    rw [hGen, if_pos]
    have : (7 : ℚ) ≤ (((tick.ms - lastDate) / 86400000 : Int) : ℚ) := by exact_mod_cast hge
    linarith
  · have := Rat.floor_intCast_div_natCast (tick.ms - lastDate) 86400000
    simpa using this.symm

/-- Witness of C10, as amended: with the draw 0, a last survey 4 days old sets no timer
and a last survey 8 days old sets the timer. -/
theorem checkAndShowSurvey_threshold_witness :
    (checkAndShowSurvey exampleEnv { exampleTick with ms := 4 * 86400000 }
      (initialState exampleEnv [("last_survey_date", "1970-01-01T00:00:00.000Z")]
        exampleDom)).calls = [] ++ [Call.checkAndShowSurvey] ∧
    (checkAndShowSurvey exampleEnv { exampleTick with ms := 8 * 86400000 }
      (initialState exampleEnv [("last_survey_date", "1970-01-01T00:00:00.000Z")]
        exampleDom)).calls =
      [] ++ [Call.checkAndShowSurvey, Call.setTimeout Timer.showSurvey 2000] :=
  ⟨(checkAndShowSurvey_threshold exampleEnv { exampleTick with ms := 4 * 86400000 }
      (initialState exampleEnv [("last_survey_date", "1970-01-01T00:00:00.000Z")] exampleDom)
      "1970-01-01T00:00:00.000Z" 0 (by decide) (by decide) rfl (le_refl _)
      (by simp [exampleTick])).2.2.2.1 (by decide),
    (checkAndShowSurvey_threshold exampleEnv { exampleTick with ms := 8 * 86400000 }
      (initialState exampleEnv [("last_survey_date", "1970-01-01T00:00:00.000Z")] exampleDom)
      "1970-01-01T00:00:00.000Z" 0 (by decide) (by decide) rfl (le_refl _)
      (by simp [exampleTick])).2.2.2.2.1 (by decide)⟩

/-- Counterexample to C10 as stated: the last survey is 6 days old and the draw is
1/2 + 2^-52. The elapsed whole days, 6, are fewer than 5 + 2r = 6 + 2^-51, yet the
timer of the survey prompt is set, because the double sum 5 + r * 2 is 6. -/
theorem checkAndShowSurvey_prompts_below_exact_threshold :
    (0 : ℚ) ≤ 1 / 2 + 1 / 2 ^ 52 ∧ (1 / 2 + 1 / 2 ^ 52 : ℚ) < 1 ∧
    (6 * 86400000 - 0 : Int) / 86400000 = 6 ∧
    ¬ ((5 : ℚ) + 2 * (1 / 2 + 1 / 2 ^ 52) ≤ 6) ∧
    (checkAndShowSurvey exampleEnv
      { exampleTick with ms := 6 * 86400000, random := 1 / 2 + 1 / 2 ^ 52 }
      (initialState exampleEnv [("last_survey_date", "1970-01-01T00:00:00.000Z")]
        exampleDom)).calls =
      [Call.checkAndShowSurvey, Call.setTimeout Timer.showSurvey 2000] := by
  refine ⟨by norm_num, by norm_num, by decide, by norm_num, ?_⟩
  have h := checkAndShowSurvey_trace exampleEnv
    { exampleTick with ms := 6 * 86400000, random := 1 / 2 + 1 / 2 ^ 52 }
    (initialState exampleEnv [("last_survey_date", "1970-01-01T00:00:00.000Z")] exampleDom)
    "1970-01-01T00:00:00.000Z" 0 (by decide) (by decide) rfl (by norm_num) (by norm_num)
  rw [h]
  simp only [surveyInterval_at_tie]
  have hd : ((6 * 86400000 - 0 : Int) / 86400000 : Int) = 6 := by decide
  rw [hd]
  norm_num [initialState]

/-! ## The survey submission -/

theorem storedUserId_congr (s1 s : AppState) (hc : s1.currentUser = s.currentUser)
    (hl : getItem s1.localStorage "userId" = getItem s.localStorage "userId") :
    storedUserId s1 = storedUserId s := by
  simp [storedUserId, hc, hl]

theorem submitSurvey_rejected (env : Env) (a : SurveyAttempt) (n : Nat) (s : AppState)
    (h : a.isComplete = false ∨ truthy (storedUserId s) = false) :
    ∃ msg, submitSurvey env a n s = record (Call.alert msg) s := by
  unfold submitSurvey
  by_cases hc : a.isComplete = true
  · rcases h with h | h
    · rw [h] at hc; cases hc
    · exact ⟨"未检测到登录用户，请先登录再提交问卷", by simp [hc, h]⟩
  · have hc2 : a.isComplete = false := by simpa using hc
    exact ⟨"请完成所有问题再提交", by simp [hc2]⟩

theorem submitSurvey_sent (env : Env) (a : SurveyAttempt) (n : Nat) (s : AppState)
    (hc : a.isComplete = true) (hu : truthy (storedUserId s) = true) :
    submitSurvey env a n s =
      match a.response with
      | SurveyResponse.response status jsonError =>
        if 200 ≤ status ∧ status ≤ 299 then
          match jsonError with
          | none =>
            { s with
              localStorage := setItem s.localStorage "last_survey_date" a.tick.iso
              dom := { s.dom with surveyModalActive := false }
              calls := s.calls ++ [Call.fetch "POST" (surveyUrl env s), Call.addMessage "bot"
                "✅ 感谢您完成问卷！您的反馈已被记录，这对我们了解您的心理状态非常帮助。"] }
          | some message =>
            if n < 2 then
              { s with calls := s.calls ++ [Call.fetch "POST" (surveyUrl env s),
                  Call.setTimeout (Timer.submitSurvey (n + 1)) 2000] }
            else
              { s with calls := s.calls ++ [Call.fetch "POST" (surveyUrl env s),
                  Call.alert (surveyErrorMessage s message)] }
        else if (status = 503 ∨ status = 502 ∨ status = 504) ∧ n < 3 then
          { s with calls := s.calls ++ [Call.fetch "POST" (surveyUrl env s),
              Call.setTimeout (Timer.submitSurvey (n + 1)) 3000] }
        else
          { s with calls := s.calls ++ [Call.fetch "POST" (surveyUrl env s),
              Call.alert (surveyStatusMessage status)] }
      | SurveyResponse.transportError message =>
        if n < 2 then
          { s with calls := s.calls ++ [Call.fetch "POST" (surveyUrl env s),
              Call.setTimeout (Timer.submitSurvey (n + 1)) 2000] }
        else
          { s with calls := s.calls ++ [Call.fetch "POST" (surveyUrl env s),
              Call.alert (surveyErrorMessage s message)] } := by
  unfold submitSurvey
  simp only [hc, hu, Bool.not_true, Bool.false_eq_true, if_false]
  cases a.response with
  | transportError message =>
    simp only [surveyCatch, record, surveyErrorMessage]
    split <;> simp
  | response status jsonError =>
    simp only
    by_cases hok : 200 ≤ status ∧ status ≤ 299
    · have hok2 : (decide (200 ≤ status) && decide (status ≤ 299)) = true := by simp [hok]
      rw [if_pos hok2, if_pos hok]
      cases jsonError with
      | none => simp [record]
      | some message =>
        simp only [surveyCatch, record, surveyErrorMessage]
        split <;> simp
    · have hok2 : ¬ (decide (200 ≤ status) && decide (status ≤ 299)) = true := by simpa using hok
      rw [if_neg hok2, if_neg hok]
      by_cases hr : (status = 503 ∨ status = 502 ∨ status = 504) ∧ n < 3
      · have hr2 : ((status == 503 || status == 502 || status == 504) && decide (n < 3)) = true := by
          simpa [or_assoc] using hr
        rw [if_pos hr2, if_pos hr]
        simp [record]
      · have hr2 : ¬ ((status == 503 || status == 502 || status == 504) && decide (n < 3)) = true := by
          simpa [or_assoc] using hr
        rw [if_neg hr2, if_neg hr]
        simp [record]

theorem runSubmitSurvey_retry (env : Env) (a : SurveyAttempt) (rest : List SurveyAttempt)
    (n m d : Nat) (s : AppState)
    (h : submitSurvey env a n s = record (Call.setTimeout (Timer.submitSurvey m) d)
      (record (Call.fetch "POST" (surveyUrl env s)) s)) :
    runSubmitSurvey env (a :: rest) n s = runSubmitSurvey env rest m
      (record (Call.setTimeout (Timer.submitSurvey m) d)
        (record (Call.fetch "POST" (surveyUrl env s)) s)) := by
  rw [runSubmitSurvey, h]
  simp [callsSince, scheduledRetry, record]

theorem runSubmitSurvey_last (env : Env) (a : SurveyAttempt) (rest : List SurveyAttempt)
    (n : Nat) (s : AppState)
    (h : scheduledRetry (callsSince s (submitSurvey env a n s)) = none) :
    runSubmitSurvey env (a :: rest) n s = submitSurvey env a n s := by
  rw [runSubmitSurvey, h]

theorem submitSurvey_transport (env : Env) (a : SurveyAttempt) (n : Nat) (s : AppState)
    (message : String) (hc : a.isComplete = true) (hu : truthy (storedUserId s) = true)
    (hr : a.response = SurveyResponse.transportError message) :
    (n < 2 → submitSurvey env a n s =
      record (Call.setTimeout (Timer.submitSurvey (n + 1)) 2000)
        (record (Call.fetch "POST" (surveyUrl env s)) s)) ∧
    (¬ n < 2 → submitSurvey env a n s =
      record (Call.alert (surveyErrorMessage s message))
        (record (Call.fetch "POST" (surveyUrl env s)) s)) := by
  rw [submitSurvey_sent env a n s hc hu, hr]
  constructor <;> intro h <;> simp [h, record]

theorem submitSurvey_retryable (env : Env) (a : SurveyAttempt) (n : Nat) (s : AppState)
    (status : Nat) (jsonError : Option String) (hc : a.isComplete = true)
    (hu : truthy (storedUserId s) = true)
    (hr : a.response = SurveyResponse.response status jsonError)
    (hs : status = 502 ∨ status = 503 ∨ status = 504) :
    (n < 3 → submitSurvey env a n s =
      record (Call.setTimeout (Timer.submitSurvey (n + 1)) 3000)
        (record (Call.fetch "POST" (surveyUrl env s)) s)) ∧
    (¬ n < 3 → submitSurvey env a n s =
      record (Call.alert (surveyStatusMessage status))
        (record (Call.fetch "POST" (surveyUrl env s)) s)) := by
  rw [submitSurvey_sent env a n s hc hu, hr]
  have hnot : ¬ (200 ≤ status ∧ status ≤ 299) := by omega
  have hs2 : status = 503 ∨ status = 502 ∨ status = 504 := by omega
  constructor <;> intro h <;> simp [hnot, hs2, h, record]

theorem submitSurvey_accepted (env : Env) (a : SurveyAttempt) (n : Nat) (s : AppState)
    (status : Nat) (hc : a.isComplete = true) (hu : truthy (storedUserId s) = true)
    (hr : a.response = SurveyResponse.response status none)
    (hs : 200 ≤ status ∧ status ≤ 299) :
    submitSurvey env a n s =
      { s with
        localStorage := setItem s.localStorage "last_survey_date" a.tick.iso
        dom := { s.dom with surveyModalActive := false }
        calls := s.calls ++ [Call.fetch "POST" (surveyUrl env s), Call.addMessage "bot"
          "✅ 感谢您完成问卷！您的反馈已被记录，这对我们了解您的心理状态非常帮助。"] } := by
  rw [submitSurvey_sent env a n s hc hu, hr]
  simp only [hs, and_self, if_true]

/-- C12: for a complete survey and an existing session, when every run of `submitSurvey`
started at attempt 0 ends in a transport failure, the chain makes exactly 3 requests:
the first run and the second run each set a 2000 ms timer for the next attempt, the
third run sets none and shows the failure in an alert, and the storage, so the key
last_survey_date too, is the same after every run. -/
theorem submitSurvey_transport_failure_chain (env : Env) (s : AppState)
    (a0 a1 a2 : SurveyAttempt) (rest : List SurveyAttempt) (m0 m1 m2 : String)
    (hUser : truthy (storedUserId s) = true)
    (hc0 : a0.isComplete = true) (hc1 : a1.isComplete = true) (hc2 : a2.isComplete = true)
    (hr0 : a0.response = SurveyResponse.transportError m0)
    (hr1 : a1.response = SurveyResponse.transportError m1)
    (hr2 : a2.response = SurveyResponse.transportError m2) :
    callsSince s (runSubmitSurvey env (a0 :: a1 :: a2 :: rest) 0 s) =
      [Call.fetch "POST" (surveyUrl env s), Call.setTimeout (Timer.submitSurvey 1) 2000,
        Call.fetch "POST" (surveyUrl env s), Call.setTimeout (Timer.submitSurvey 2) 2000,
        Call.fetch "POST" (surveyUrl env s), Call.alert (surveyErrorMessage s m2)] ∧
    ((callsSince s (runSubmitSurvey env (a0 :: a1 :: a2 :: rest) 0 s)).filter isFetch).length
      = 3 ∧
    scheduledRetry (callsSince (runSubmitSurvey env [a0, a1] 0 s)
      (runSubmitSurvey env (a0 :: a1 :: a2 :: rest) 0 s)) = none ∧
    (runSubmitSurvey env [a0] 0 s).localStorage = s.localStorage ∧
    (runSubmitSurvey env [a0, a1] 0 s).localStorage = s.localStorage ∧
    (runSubmitSurvey env (a0 :: a1 :: a2 :: rest) 0 s).localStorage = s.localStorage := by
  let f := Call.fetch "POST" (surveyUrl env s)
  let t1 := record (Call.setTimeout (Timer.submitSurvey 1) 2000) (record f s)
  let t2 := record (Call.setTimeout (Timer.submitSurvey 2) 2000) (record f t1)
  let t3 := record (Call.alert (surveyErrorMessage s m2)) (record f t2)
  have e0 : submitSurvey env a0 0 s = t1 :=
    (submitSurvey_transport env a0 0 s m0 hc0 hUser hr0).1 (by decide)
  have e1 : submitSurvey env a1 1 t1 = t2 :=
    (submitSurvey_transport env a1 1 t1 m1 hc1 hUser hr1).1 (by decide)
  have e2 : submitSurvey env a2 2 t2 = t3 :=
    (submitSurvey_transport env a2 2 t2 m2 hc2 hUser hr2).2 (by decide)
  have step0 : ∀ r, runSubmitSurvey env (a0 :: r) 0 s = runSubmitSurvey env r 1 t1 :=
    fun r => runSubmitSurvey_retry env a0 r 0 1 2000 s e0
  have step1 : ∀ r, runSubmitSurvey env (a1 :: r) 1 t1 = runSubmitSurvey env r 2 t2 :=
    fun r => runSubmitSurvey_retry env a1 r 1 2 2000 t1 e1
  have step2 : runSubmitSurvey env (a2 :: rest) 2 t2 = t3 := by
    rw [runSubmitSurvey_last env a2 rest 2 t2 (by rw [e2]; simp [t3, callsSince, scheduledRetry, record, f]), e2]
  have hAll : runSubmitSurvey env (a0 :: a1 :: a2 :: rest) 0 s = t3 := by
    rw [step0, step1, step2]
  have h1 : runSubmitSurvey env [a0] 0 s = t1 := by rw [step0]; rfl
  have h2 : runSubmitSurvey env [a0, a1] 0 s = t2 := by rw [step0, step1]; rfl
  rw [hAll, h1, h2]
  refine ⟨?_, ?_, ?_, ?_, ?_, ?_⟩
  · simp [t3, t2, t1, f, callsSince, record]
  · simp [t3, t2, t1, f, callsSince, record, isFetch]
  · simp [t3, t2, t1, f, callsSince, record, scheduledRetry]
  · simp [t1, record]
  · simp [t2, t1, record]
  · simp [t3, t2, t1, record]

theorem storedUserId_record (c : Call) (s : AppState) :
    storedUserId (record c s) = storedUserId s := rfl

theorem surveyUrl_record (env : Env) (c : Call) (s : AppState) :
    surveyUrl env (record c s) = surveyUrl env s := rfl

/-- Witness of C12: user bob submits a complete survey and every request is refused
by the network. -/
theorem submitSurvey_transport_failure_chain_witness :
    ((callsSince (exampleSession "bob" [])
      (runSubmitSurvey exampleEnv
        (attemptWith (SurveyResponse.transportError "Failed to fetch") ::
          attemptWith (SurveyResponse.transportError "Failed to fetch") ::
          attemptWith (SurveyResponse.transportError "Failed to fetch") ::
          [attemptWith (SurveyResponse.response 200 none)]) 0
        (exampleSession "bob" []))).filter isFetch).length = 3 :=
  (submitSurvey_transport_failure_chain exampleEnv (exampleSession "bob" [])
    (attemptWith (SurveyResponse.transportError "Failed to fetch"))
    (attemptWith (SurveyResponse.transportError "Failed to fetch"))
    (attemptWith (SurveyResponse.transportError "Failed to fetch"))
    [attemptWith (SurveyResponse.response 200 none)]
    "Failed to fetch" "Failed to fetch" "Failed to fetch"
    (by decide) (by decide) (by decide) (by decide) rfl rfl rfl).2.1

/-- C11, evaluated at the failing input: user bob submits a complete survey and three
responses with status 503 are followed by a response with status 200 whose body is not
JSON. Four requests are sent and three retries are set, yet the unused read of the body
(line 536) throws inside the try block: last_survey_date is not written and the run
ends in the alert of a network failure. -/
theorem submitSurvey_success_status_without_json_body :
    callsSince (exampleSession "bob" [])
      (runSubmitSurvey exampleEnv
        [attemptWith (SurveyResponse.response 503 none),
          attemptWith (SurveyResponse.response 503 none),
          attemptWith (SurveyResponse.response 503 none),
          attemptWith (SurveyResponse.response 200 (some "Unexpected end of JSON input"))] 0
        (exampleSession "bob" [])) =
      [Call.fetch "POST" (surveyUrl exampleEnv (exampleSession "bob" [])),
        Call.setTimeout (Timer.submitSurvey 1) 3000,
        Call.fetch "POST" (surveyUrl exampleEnv (exampleSession "bob" [])),
        Call.setTimeout (Timer.submitSurvey 2) 3000,
        Call.fetch "POST" (surveyUrl exampleEnv (exampleSession "bob" [])),
        Call.setTimeout (Timer.submitSurvey 3) 3000,
        Call.fetch "POST" (surveyUrl exampleEnv (exampleSession "bob" [])),
        Call.alert "网络连接失败\n\nUnexpected end of JSON input"] ∧
    getItem (runSubmitSurvey exampleEnv
        [attemptWith (SurveyResponse.response 503 none),
          attemptWith (SurveyResponse.response 503 none),
          attemptWith (SurveyResponse.response 503 none),
          attemptWith (SurveyResponse.response 200 (some "Unexpected end of JSON input"))] 0
        (exampleSession "bob" [])).localStorage "last_survey_date" = none := by
  decide

/-- The retry chain on retryable statuses when the body of a 2xx response parses as
JSON: for a complete survey and an existing session, when the first
three runs of `submitSurvey` started at attempt 0 each receive one of the statuses
502, 503 and 504, each of them sends a request and sets a 3000 ms timer for the next
attempt, and the storage is unchanged after each. If the fourth run receives a 2xx
response whose body parses as JSON, the chain ends after 4 requests and 3 retries and
last_survey_date is written by that run, once. If the fourth run receives one of 502,
503 and 504, no retry is set, the failure is shown in an alert and the storage is
unchanged. -/
theorem submitSurvey_status_retry_chain (env : Env) (s : AppState)
    (a0 a1 a2 a3 : SurveyAttempt) (rest : List SurveyAttempt) (c0 c1 c2 c3 : Nat)
    (j0 j1 j2 j3 : Option String)
    (hUser : truthy (storedUserId s) = true)
    (hc0 : a0.isComplete = true) (hc1 : a1.isComplete = true) (hc2 : a2.isComplete = true)
    (hc3 : a3.isComplete = true)
    (hr0 : a0.response = SurveyResponse.response c0 j0)
    (hr1 : a1.response = SurveyResponse.response c1 j1)
    (hr2 : a2.response = SurveyResponse.response c2 j2)
    (hr3 : a3.response = SurveyResponse.response c3 j3)
    (hs0 : c0 = 502 ∨ c0 = 503 ∨ c0 = 504) (hs1 : c1 = 502 ∨ c1 = 503 ∨ c1 = 504)
    (hs2 : c2 = 502 ∨ c2 = 503 ∨ c2 = 504) :
    callsSince s (runSubmitSurvey env [a0, a1, a2] 0 s) =
      [Call.fetch "POST" (surveyUrl env s), Call.setTimeout (Timer.submitSurvey 1) 3000,
        Call.fetch "POST" (surveyUrl env s), Call.setTimeout (Timer.submitSurvey 2) 3000,
        Call.fetch "POST" (surveyUrl env s), Call.setTimeout (Timer.submitSurvey 3) 3000] ∧
    (runSubmitSurvey env [a0] 0 s).localStorage = s.localStorage ∧
    (runSubmitSurvey env [a0, a1] 0 s).localStorage = s.localStorage ∧
    (runSubmitSurvey env [a0, a1, a2] 0 s).localStorage = s.localStorage ∧
    (200 ≤ c3 ∧ c3 ≤ 299 → j3 = none →
      callsSince (runSubmitSurvey env [a0, a1, a2] 0 s)
        (runSubmitSurvey env (a0 :: a1 :: a2 :: a3 :: rest) 0 s) =
        [Call.fetch "POST" (surveyUrl env s), Call.addMessage "bot"
          "✅ 感谢您完成问卷！您的反馈已被记录，这对我们了解您的心理状态非常帮助。"] ∧
      ((callsSince s (runSubmitSurvey env (a0 :: a1 :: a2 :: a3 :: rest) 0 s)).filter
        isFetch).length = 4 ∧
      (runSubmitSurvey env (a0 :: a1 :: a2 :: a3 :: rest) 0 s).localStorage =
        setItem s.localStorage "last_survey_date" a3.tick.iso) ∧
    (c3 = 502 ∨ c3 = 503 ∨ c3 = 504 →
      callsSince (runSubmitSurvey env [a0, a1, a2] 0 s)
        (runSubmitSurvey env (a0 :: a1 :: a2 :: a3 :: rest) 0 s) =
        [Call.fetch "POST" (surveyUrl env s), Call.alert (surveyStatusMessage c3)] ∧
      ((callsSince s (runSubmitSurvey env (a0 :: a1 :: a2 :: a3 :: rest) 0 s)).filter
        isFetch).length = 4 ∧
      (runSubmitSurvey env (a0 :: a1 :: a2 :: a3 :: rest) 0 s).localStorage =
        s.localStorage) := by
  let f := Call.fetch "POST" (surveyUrl env s)
  let t1 := record (Call.setTimeout (Timer.submitSurvey 1) 3000) (record f s)
  let t2 := record (Call.setTimeout (Timer.submitSurvey 2) 3000) (record f t1)
  let t3 := record (Call.setTimeout (Timer.submitSurvey 3) 3000) (record f t2)
  have hU1 : truthy (storedUserId t1) = true := by
    simp only [t1, storedUserId_record]; exact hUser
  have hU2 : truthy (storedUserId t2) = true := by
    simp only [t2, storedUserId_record]; exact hU1
  have hU3 : truthy (storedUserId t3) = true := by
    simp only [t3, storedUserId_record]; exact hU2
  have u1 : surveyUrl env t1 = surveyUrl env s := by simp only [t1, surveyUrl_record]
  have u2 : surveyUrl env t2 = surveyUrl env s := by simp only [t2, surveyUrl_record, u1]
  have u3 : surveyUrl env t3 = surveyUrl env s := by simp only [t3, surveyUrl_record, u2]
  have e0 : submitSurvey env a0 0 s = t1 :=
    (submitSurvey_retryable env a0 0 s c0 j0 hc0 hUser hr0 hs0).1 (by decide)
  have e1 : submitSurvey env a1 1 t1 = t2 := by
    rw [(submitSurvey_retryable env a1 1 t1 c1 j1 hc1 hU1 hr1 hs1).1 (by decide), u1]
  have e2 : submitSurvey env a2 2 t2 = t3 := by
    rw [(submitSurvey_retryable env a2 2 t2 c2 j2 hc2 hU2 hr2 hs2).1 (by decide), u2]
  have step0 : ∀ r, runSubmitSurvey env (a0 :: r) 0 s = runSubmitSurvey env r 1 t1 :=
    fun r => runSubmitSurvey_retry env a0 r 0 1 3000 s e0
  have step1 : ∀ r, runSubmitSurvey env (a1 :: r) 1 t1 = runSubmitSurvey env r 2 t2 := by
    intro r
    have h := runSubmitSurvey_retry env a1 r 1 2 3000 t1 (by rw [e1, u1])
    rw [h, u1]
  have step2 : ∀ r, runSubmitSurvey env (a2 :: r) 2 t2 = runSubmitSurvey env r 3 t3 := by
    intro r
    have h := runSubmitSurvey_retry env a2 r 2 3 3000 t2 (by rw [e2, u2])
    rw [h, u2]
  have h1 : runSubmitSurvey env [a0] 0 s = t1 := by rw [step0]; rfl
  have h2 : runSubmitSurvey env [a0, a1] 0 s = t2 := by rw [step0, step1]; rfl
  have h3 : runSubmitSurvey env [a0, a1, a2] 0 s = t3 := by rw [step0, step1, step2]; rfl
  have h4 : runSubmitSurvey env (a0 :: a1 :: a2 :: a3 :: rest) 0 s =
      runSubmitSurvey env (a3 :: rest) 3 t3 := by rw [step0, step1, step2]
  rw [h1, h2, h3, h4]
  refine ⟨?_, ?_, ?_, ?_, ?_, ?_⟩
  · simp [t3, t2, t1, f, callsSince, record]
  · simp [t1, record]
  · simp [t2, t1, record]
  · simp [t3, t2, t1, record]
  · intro hok hj
    subst hj
    have e3 := submitSurvey_accepted env a3 3 t3 c3 hc3 hU3 hr3 hok
    rw [u3] at e3
    have hl : runSubmitSurvey env (a3 :: rest) 3 t3 = submitSurvey env a3 3 t3 :=
      runSubmitSurvey_last env a3 rest 3 t3
        (by rw [e3]; simp [callsSince, scheduledRetry])
    rw [hl, e3]
    refine ⟨?_, ?_, ?_⟩
    · simp [t3, t2, t1, f, callsSince, record, surveyUrl]
    · simp [t3, t2, t1, f, callsSince, record, isFetch]
    · simp [t3, t2, t1, record]
  · intro hs3
    have e3 := (submitSurvey_retryable env a3 3 t3 c3 j3 hc3 hU3 hr3 hs3).2 (by decide)
    rw [u3] at e3
    have hl : runSubmitSurvey env (a3 :: rest) 3 t3 = submitSurvey env a3 3 t3 :=
      runSubmitSurvey_last env a3 rest 3 t3
        (by rw [e3]; simp [callsSince, scheduledRetry, record])
    rw [hl, e3]
    refine ⟨?_, ?_, ?_⟩
    · simp [t3, t2, t1, f, callsSince, record, surveyUrl]
    · simp [t3, t2, t1, f, callsSince, record, isFetch]
    · simp [t3, t2, t1, record]

/-- User bob submits a complete survey; the server answers 503 three times and then 200
with a JSON body: last_survey_date is written. -/
theorem submitSurvey_status_retry_chain_witness :
    (runSubmitSurvey exampleEnv
      (attemptWith (SurveyResponse.response 503 none) ::
        attemptWith (SurveyResponse.response 503 none) ::
        attemptWith (SurveyResponse.response 503 none) ::
        attemptWith (SurveyResponse.response 200 none) :: []) 0
      (exampleSession "bob" [])).localStorage =
      setItem (exampleSession "bob" []).localStorage "last_survey_date"
        (attemptWith (SurveyResponse.response 200 none)).tick.iso :=
  ((submitSurvey_status_retry_chain exampleEnv (exampleSession "bob" [])
    (attemptWith (SurveyResponse.response 503 none))
    (attemptWith (SurveyResponse.response 503 none))
    (attemptWith (SurveyResponse.response 503 none))
    (attemptWith (SurveyResponse.response 200 none)) [] 503 503 503 200 none none none none
    (by decide) (by decide) (by decide) (by decide) (by decide) rfl rfl rfl rfl
    (by decide) (by decide) (by decide)).2.2.2.2.1 (by decide) rfl).2.2

/-- C13: whatever the form, the session and the attempt counter, `submitSurvey` sends a
request exactly when every question of `surveyQuestions` has a checked answer and a
non-empty user id is found; when a question is unanswered or no user id is found it
only shows an alert: no request, no retry timer, and the storage is unchanged. -/
theorem submitSurvey_sends_only_complete_with_user (env : Env) (a : SurveyAttempt)
    (n : Nat) (s : AppState) :
    (a.isComplete = true ↔ ∀ q ∈ surveyQuestions, a.checked.lookup q.id ≠ none) ∧
    ((∃ c ∈ callsSince s (submitSurvey env a n s), isFetch c = true) ↔
      ((∀ q ∈ surveyQuestions, a.checked.lookup q.id ≠ none) ∧
        truthy (storedUserId s) = true)) ∧
    ((¬ (∀ q ∈ surveyQuestions, a.checked.lookup q.id ≠ none) ∨
        truthy (storedUserId s) = false) →
      (∃ msg, callsSince s (submitSurvey env a n s) = [Call.alert msg]) ∧
      (∀ c ∈ callsSince s (submitSurvey env a n s), isFetch c = false) ∧
      scheduledRetry (callsSince s (submitSurvey env a n s)) = none ∧
      (submitSurvey env a n s).localStorage = s.localStorage) := by
  have hIff : a.isComplete = true ↔ ∀ q ∈ surveyQuestions, a.checked.lookup q.id ≠ none := by
    unfold SurveyAttempt.isComplete
    rw [List.all_eq_true]
    constructor
    · intro h q hq
      have := h q hq
      intro hn
      rw [hn] at this
      cases this
    · intro h q hq
      have := h q hq
      cases hl : a.checked.lookup q.id with
      | none => exact absurd hl this
      | some v => rfl
  have hRej : (a.isComplete = false ∨ truthy (storedUserId s) = false) →
      (∃ msg, callsSince s (submitSurvey env a n s) = [Call.alert msg]) ∧
      (∀ c ∈ callsSince s (submitSurvey env a n s), isFetch c = false) ∧
      scheduledRetry (callsSince s (submitSurvey env a n s)) = none ∧
      (submitSurvey env a n s).localStorage = s.localStorage := by
    intro h
    obtain ⟨msg, hm⟩ := submitSurvey_rejected env a n s h
    rw [hm]
    refine ⟨⟨msg, by simp [callsSince, record]⟩, ?_, ?_, rfl⟩
    · simp [callsSince, record, isFetch]
    · simp [callsSince, record, scheduledRetry]
  have hSent : a.isComplete = true → truthy (storedUserId s) = true →
      ∃ c ∈ callsSince s (submitSurvey env a n s), isFetch c = true := by
    intro hc hu
    refine ⟨Call.fetch "POST" (surveyUrl env s), ?_, rfl⟩
    rw [submitSurvey_sent env a n s hc hu]
    cases a.response with
    | transportError message =>
      simp only
      split <;> simp [callsSince]
    | response status jsonError =>
      simp only
      split
      · cases jsonError with
        | none => simp [callsSince]
        | some message =>
          simp only
          split <;> simp [callsSince]
      · split <;> simp [callsSince]
  refine ⟨hIff, ?_, ?_⟩
  · constructor
    · rintro ⟨c, hc, hf⟩
      by_cases h1 : a.isComplete = true
      · by_cases h2 : truthy (storedUserId s) = true
        · exact ⟨hIff.1 h1, h2⟩
        · have := (hRej (Or.inr (by simpa using h2))).2.1 c hc
          rw [this] at hf; cases hf
      · have := (hRej (Or.inl (by simpa using h1))).2.1 c hc
        rw [this] at hf; cases hf
    · rintro ⟨h1, h2⟩
      exact hSent (hIff.2 h1) h2
  · rintro (h | h)
    · apply hRej
      left
      by_contra hn
      exact h (hIff.1 (by simpa using hn))
    · exact hRej (Or.inr h)

/-- Witness of C13: user bob left the fifth question unanswered. -/
theorem submitSurvey_sends_only_complete_with_user_witness :
    (submitSurvey exampleEnv
      { tick := exampleTick, checked := [(1, 0), (2, 1), (3, 0), (4, 2)],
        response := SurveyResponse.response 200 none } 0
      (exampleSession "bob" [])).localStorage = (exampleSession "bob" []).localStorage :=
  ((submitSurvey_sends_only_complete_with_user exampleEnv
    { tick := exampleTick, checked := [(1, 0), (2, 1), (3, 0), (4, 2)],
      response := SurveyResponse.response 200 none } 0
    (exampleSession "bob" [])).2.2 (Or.inl (by decide))).2.2.2

/-! ## Local validation of the auth form -/

theorem showApp_calls (env : Env) (tick : Tick) (resp : ConsentGet) (s : AppState) :
    ∃ xs, (showApp env tick resp s).calls = s.calls ++ xs := by
  obtain ⟨g, hg⟩ : ∃ g : AppState → List Call,
      ∀ x, (initApp env tick x).calls = x.calls ++ g x :=
    ⟨fun x => (initApp env tick x).calls.drop x.calls.length, fun x => by
      obtain ⟨-, -, -, -, zs, hz⟩ := initApp_frame env tick x
      simp [hz]⟩
  unfold showApp
  simp only []
  by_cases hu : truthy (storedUserId s) = true
  · simp only [hu, if_true]
    cases resp with
    | ok consent date =>
      cases consent with
      | boolean b =>
        cases b
        · simp only [Bool.false_eq_true, if_false]
          split <;> simp only [hg, record, List.append_assoc] <;> exact ⟨_, rfl⟩
        · simp only [if_true]
          split <;> simp only [hg, record, List.append_assoc] <;> exact ⟨_, rfl⟩
      | other =>
        simp only
        split <;> simp only [hg, record, List.append_assoc] <;> exact ⟨_, rfl⟩
    | transportError =>
      simp only
      split <;> simp only [hg, record, List.append_assoc] <;> exact ⟨_, rfl⟩
    | notOk st =>
      simp only
      split <;> simp only [hg, record, List.append_assoc] <;> exact ⟨_, rfl⟩
    | badBody =>
      simp only
      split <;> simp only [hg, record, List.append_assoc] <;> exact ⟨_, rfl⟩
  · simp only [hu, if_false]
    split
    · exact ⟨[], by simp⟩
    · simp only [hg]
      exact ⟨_, rfl⟩

theorem passesLocalValidation_iff (s : AppState) :
    passesLocalValidation s = true ↔
      (3 ≤ jsLength (jsTrim s.dom.authUsername) ∧ 6 ≤ jsLength s.dom.authPassword ∧
        (s.isLoginMode = false → s.dom.authPassword = s.dom.authConfirm)) := by
  unfold passesLocalValidation
  cases hm : s.isLoginMode <;> simp [and_assoc]

theorem handleAuthSubmit_rejected (env : Env) (tick : Tick) (resp : AuthResponse)
    (consent : ConsentGet) (s : AppState) (h : passesLocalValidation s = false) :
    (handleAuthSubmit env tick resp consent s).calls = s.calls ∧
    (handleAuthSubmit env tick resp consent s).localStorage = s.localStorage ∧
    (handleAuthSubmit env tick resp consent s).currentUser = s.currentUser ∧
    (handleAuthSubmit env tick resp consent s).isLoginMode = s.isLoginMode := by
  have hn : ¬ (3 ≤ jsLength (jsTrim s.dom.authUsername) ∧ 6 ≤ jsLength s.dom.authPassword ∧
      (s.isLoginMode = false → s.dom.authPassword = s.dom.authConfirm)) := by
    rw [← passesLocalValidation_iff, h]; simp
  unfold handleAuthSubmit
  simp only [clearAuthErrors]
  by_cases h3 : jsLength (jsTrim s.dom.authUsername) < 3
  · rw [if_pos h3]; exact ⟨rfl, rfl, rfl, rfl⟩
  · rw [if_neg h3]
    by_cases h6 : jsLength s.dom.authPassword < 6
    · rw [if_pos h6]; exact ⟨rfl, rfl, rfl, rfl⟩
    · rw [if_neg h6]
      cases hm : s.isLoginMode with
      | true =>
        exfalso
        apply hn
        refine ⟨by omega, by omega, ?_⟩
        intro hf; rw [hm] at hf; cases hf
      | false =>
        simp only [Bool.false_eq_true, if_false]
        by_cases hp : s.dom.authPassword = s.dom.authConfirm
        · exfalso
          exact hn ⟨by omega, by omega, fun _ => hp⟩
        · have hb : (s.dom.authPassword != s.dom.authConfirm) = true := by simpa using hp
          rw [if_pos hb]; exact ⟨rfl, rfl, rfl, rfl⟩

theorem handleAuthSubmit_sent (env : Env) (tick : Tick) (resp : AuthResponse)
    (consent : ConsentGet) (s : AppState) (h : passesLocalValidation s = true) :
    ∃ xs, (handleAuthSubmit env tick resp consent s).calls =
      s.calls ++ Call.fetch "POST" (s.BACKEND_AUTH_API ++
        (if s.isLoginMode then "/login" else "/register")) :: xs := by
  obtain ⟨h3, h6, hMode⟩ := (passesLocalValidation_iff s).1 h
  have h3n : ¬ jsLength (jsTrim s.dom.authUsername) < 3 := by omega
  have h6n : ¬ jsLength s.dom.authPassword < 6 := by omega
  have key : ∀ (fallback url : String) (s0 : AppState), s0.calls = s.calls →
      ∃ xs, (handleAuthResponse env tick fallback resp consent
        (record (Call.fetch "POST" url) s0)).calls =
        s.calls ++ Call.fetch "POST" url :: xs := by
    intro fallback url s0 hs0
    cases resp with
    | transportError =>
      exact ⟨[], by simp [handleAuthResponse, showAuthError, record, hs0]⟩
    | failure error =>
      exact ⟨[], by simp [handleAuthResponse, showAuthError, record, hs0]⟩
    | success userId userName token =>
      simp only [handleAuthResponse]
      obtain ⟨xs, hxs⟩ := showApp_calls env tick consent
        { record (Call.fetch "POST" url) s0 with
          localStorage := setItem (setItem (setItem
            (record (Call.fetch "POST" url) s0).localStorage "token" token)
            "userId" userId) "userName" userName
          currentUser := some { id := userId, name := userName } }
      refine ⟨xs, ?_⟩
      rw [hxs]
      simp [record, hs0]
  have hb : (clearAuthErrors s).BACKEND_AUTH_API = s.BACKEND_AUTH_API := rfl
  have hd1 : (clearAuthErrors s).dom.authUsername = s.dom.authUsername := rfl
  have hd2 : (clearAuthErrors s).dom.authPassword = s.dom.authPassword := rfl
  have hd3 : (clearAuthErrors s).dom.authConfirm = s.dom.authConfirm := rfl
  have hd4 : (clearAuthErrors s).isLoginMode = s.isLoginMode := rfl
  unfold handleAuthSubmit
  simp only [hb, hd1, hd2, hd3, hd4, h3n, h6n, if_false]
  cases hm : s.isLoginMode with
  | true =>
    simp only [if_true]
    exact key "登录失败" _ (clearAuthErrors s) rfl
  | false =>
    have hp := hMode hm
    simp only [Bool.false_eq_true, if_false, hp, bne_self_eq_false]
    exact key "注册失败" _ (clearAuthErrors s) rfl

/-- C14: whatever the user name, the password, the confirmation and the mode,
`handleAuthSubmit` sends a request exactly when the trimmed user name has length at
least 3, the password has length at least 6 and, in registration mode, the password
equals the confirmation; the request then is the first call it makes and goes to /login
or /register. On every rejected input it makes no call at all and neither the storage
nor the in-memory session changes. -/
theorem handleAuthSubmit_sends_iff_valid (env : Env) (tick : Tick) (resp : AuthResponse)
    (consent : ConsentGet) (s : AppState) :
    ((∃ c ∈ callsSince s (handleAuthSubmit env tick resp consent s), isFetch c = true) ↔
      (3 ≤ jsLength (jsTrim s.dom.authUsername) ∧ 6 ≤ jsLength s.dom.authPassword ∧
        (s.isLoginMode = false → s.dom.authPassword = s.dom.authConfirm))) ∧
    ((3 ≤ jsLength (jsTrim s.dom.authUsername) ∧ 6 ≤ jsLength s.dom.authPassword ∧
        (s.isLoginMode = false → s.dom.authPassword = s.dom.authConfirm)) →
      (callsSince s (handleAuthSubmit env tick resp consent s)).head? =
        some (Call.fetch "POST" (s.BACKEND_AUTH_API ++
          (if s.isLoginMode then "/login" else "/register")))) ∧
    (¬ (3 ≤ jsLength (jsTrim s.dom.authUsername) ∧ 6 ≤ jsLength s.dom.authPassword ∧
        (s.isLoginMode = false → s.dom.authPassword = s.dom.authConfirm)) →
      callsSince s (handleAuthSubmit env tick resp consent s) = [] ∧
      (handleAuthSubmit env tick resp consent s).localStorage = s.localStorage ∧
      (handleAuthSubmit env tick resp consent s).currentUser = s.currentUser) := by
  have hYes : passesLocalValidation s = true →
      (callsSince s (handleAuthSubmit env tick resp consent s)).head? =
        some (Call.fetch "POST" (s.BACKEND_AUTH_API ++
          (if s.isLoginMode then "/login" else "/register"))) := by
    intro h
    obtain ⟨xs, hxs⟩ := handleAuthSubmit_sent env tick resp consent s h
    rw [callsSince_of_append s _ _ hxs]
    rfl
  have hNo : passesLocalValidation s = false →
      callsSince s (handleAuthSubmit env tick resp consent s) = [] ∧
      (handleAuthSubmit env tick resp consent s).localStorage = s.localStorage ∧
      (handleAuthSubmit env tick resp consent s).currentUser = s.currentUser := by
    intro h
    obtain ⟨h1, h2, h3, -⟩ := handleAuthSubmit_rejected env tick resp consent s h
    exact ⟨by simp [callsSince, h1], h2, h3⟩
  refine ⟨?_, fun h => hYes ((passesLocalValidation_iff s).2 h), ?_⟩
  · rw [← passesLocalValidation_iff]
    constructor
    · rintro ⟨c, hc, -⟩
      by_contra hn
      have := (hNo (by simpa using hn)).1
      rw [this] at hc
      cases hc
    · intro h
      obtain ⟨xs, hxs⟩ := handleAuthSubmit_sent env tick resp consent s h
      rw [callsSince_of_append s _ _ hxs]
      exact ⟨_, List.mem_cons_self _ _, rfl⟩
  · intro hn
    apply hNo
    rw [← passesLocalValidation_iff] at hn
    simpa using hn

/-- Witness of C14: the login form holds the user name bob and the password secret1. -/
theorem handleAuthSubmit_sends_iff_valid_witness :
    (callsSince loginFormFilled (handleAuthSubmit exampleEnv exampleTick
      AuthResponse.transportError ConsentGet.transportError loginFormFilled)).head? =
      some (Call.fetch "POST" (loginFormFilled.BACKEND_AUTH_API ++
        (if loginFormFilled.isLoginMode then "/login" else "/register"))) :=
  (handleAuthSubmit_sends_iff_valid exampleEnv exampleTick AuthResponse.transportError
    ConsentGet.transportError loginFormFilled).2.1 (by decide)

/-! ## The URLs of the requests -/

theorem checkAndShowSurvey_timers (env : Env) (tick : Tick) (s : AppState) :
    ∃ mid, (∀ c ∈ mid, isFetch c = false) ∧
      checkAndShowSurvey env tick s =
        { s with calls := s.calls ++ Call.checkAndShowSurvey :: mid } := by
  unfold checkAndShowSurvey
  simp only [record]
  split
  · split
    · exact ⟨[Call.setTimeout Timer.showSurvey 3000], by simp [isFetch], by simp⟩
    · exact ⟨[], by simp, by simp⟩
  · split
    · exact ⟨[], by simp, by simp⟩
    · split
      · exact ⟨[Call.setTimeout Timer.showSurvey 2000], by simp [isFetch], by simp⟩
      · exact ⟨[], by simp, by simp⟩

theorem continueInit_fetches (env : Env) (tick : Tick) (s : AppState) :
    ∃ xs, (∀ c ∈ xs, isFetch c = false) ∧
      (continueInit env tick s).calls = s.calls ++ xs := by
  obtain ⟨mid, hmid, h⟩ := checkAndShowSurvey_timers env tick s
  refine ⟨Call.checkAndShowSurvey :: mid ++ [Call.setupEventListeners, Call.initializeSurvey,
    Call.loadUserStatistics, Call.loadMoodHistory], ?_, ?_⟩
  · intro c hc
    simp only [List.cons_append, List.mem_cons, List.mem_append, List.mem_singleton] at hc
    rcases hc with rfl | hc | rfl | rfl | rfl | hc
    · rfl
    · exact hmid c hc
    · rfl
    · rfl
    · rfl
    · cases hc with
      | inl h => rw [h]; rfl
      | inr h => cases h
  · simp [continueInit, h, loadMoodHistory, loadUserStatistics, initializeSurvey,
      setupEventListeners, record]

theorem initApp_fetches (env : Env) (tick : Tick) (s : AppState) :
    ∃ xs, (∀ c ∈ xs, isFetch c = false) ∧ (initApp env tick s).calls = s.calls ++ xs := by
  rcases initApp_cases env tick s with h | h | h
  · rw [h]
    exact ⟨[], by simp, by simp⟩
  · obtain ⟨xs, hxs, hc⟩ := continueInit_fetches env tick { s with dom := { s.dom with
      consentModalActive := false, appPagePointerEvents := "auto", appPageOpacity := "1" } }
    rw [h]
    exact ⟨xs, hxs, hc⟩
  · obtain ⟨xs, hxs, hc⟩ := continueInit_fetches env tick s
    rw [h]
    exact ⟨xs, hxs, hc⟩

theorem filter_isFetch_of_none (xs : List Call) (h : ∀ c ∈ xs, isFetch c = false) :
    xs.filter isFetch = [] := by
  rw [List.filter_eq_nil_iff]
  intro c hc
  rw [h c hc]
  simp

theorem showApp_requests (env : Env) (tick : Tick) (resp : ConsentGet) (s : AppState)
    (uid : String) (h : LoggedInAs s uid) :
    (callsSince s (showApp env tick resp s)).filter isFetch =
      [Call.fetch "GET" (consentGetUrl env s uid)] := by
  obtain ⟨name, ls, -, -, hEq⟩ := showApp_loggedIn env tick resp s uid h
  obtain ⟨xs, hxs, hc⟩ := initApp_fetches env tick { s with
      localStorage := ls
      dom := { s.dom with
        loginPageDisplay := "none", appPageDisplay := "block", userNameDisplay := name }
      calls := s.calls ++ [Call.fetch "GET" (consentGetUrl env s uid)] }
  rw [← hEq] at hc
  have : callsSince s (showApp env tick resp s) =
      [Call.fetch "GET" (consentGetUrl env s uid)] ++ xs := by
    apply callsSince_of_append
    rw [hc]; simp
  rw [this, List.filter_append, filter_isFetch_of_none xs hxs]
  rfl

theorem acceptConsent_requests (env : Env) (tick : Tick) (post : PostOutcome) (s : AppState)
    (uid : String) (h : sessionUserId s = some uid) :
    (callsSince s (acceptConsent env tick post s)).filter isFetch =
      [Call.fetch "POST" (consentPostUrl env s)] := by
  obtain ⟨xs, hxs, hc⟩ := continueInit_fetches env tick { s with
      localStorage := setItem (setItem s.localStorage ("consent_agreed_" ++ uid) "true")
        ("consent_agreed_" ++ uid ++ "_date") tick.iso
      dom := { s.dom with
        consentModalActive := false, appPagePointerEvents := "auto", appPageOpacity := "1" }
      calls := s.calls ++ [Call.fetch "POST" (consentPostUrl env s)] }
  rw [← acceptConsent_eq env tick post s uid h] at hc
  have : callsSince s (acceptConsent env tick post s) =
      [Call.fetch "POST" (consentPostUrl env s)] ++ xs := by
    apply callsSince_of_append
    rw [hc]; simp
  rw [this, List.filter_append, filter_isFetch_of_none xs hxs]
  rfl

theorem declineConsent_requests (env : Env) (replaceThrows : Bool)
    (s : AppState) (uid : String) (h : sessionUserId s = some uid) :
    (callsSince s (declineConsent env replaceThrows s)).filter isFetch =
      [Call.fetch "POST" (consentPostUrl env s)] := by
  have hne := sessionUserId_ne_empty s uid h
  have htu : truthy (some uid) = true := by simp [truthy, hne]
  have hU0 : sessionUserId (record (Call.alert "您已拒绝数据收集。页面将关闭以保护您的选择。") s) =
      some uid := by
    rw [← h]; exact sessionUserId_congr _ _ rfl rfl
  unfold declineConsent
  simp only [hU0, consentKeyOf_some uid hne, htu, if_true]
  simp [record, callsSince, isFetch, consentPostUrl]

theorem submitSurvey_requests (env : Env) (a : SurveyAttempt) (n : Nat) (s : AppState)
    (hc : a.isComplete = true) (hu : truthy (storedUserId s) = true) :
    (callsSince s (submitSurvey env a n s)).filter isFetch =
      [Call.fetch "POST" (surveyUrl env s)] := by
  rw [submitSurvey_sent env a n s hc hu]
  cases a.response with
  | transportError message =>
    simp only
    split <;> simp [callsSince, isFetch]
  | response status jsonError =>
    simp only
    split
    · cases jsonError with
      | none => simp [callsSince, isFetch]
      | some message =>
        simp only
        split <;> simp [callsSince, isFetch]
    · split <;> simp [callsSince, isFetch]

/-- Counterexample to C15 as stated: on a page loaded from the host localhost with no
other configuration source the resolved base is http://localhost:7860, and the consent
read, the consent write and the survey submission are sent to the server at
http://localhost:7861/api, not to the base followed by the endpoint path. -/
theorem local_host_requests_skip_resolved_base :
    localSession.BACKEND_AUTH_API = getBackendApiUrl localEnv localSession.localStorage ∧
    localSession.BACKEND_AUTH_API = "http://localhost:7860" ∧
    (callsSince localSession (showApp localEnv exampleTick ConsentGet.transportError
      localSession)).filter isFetch =
      [Call.fetch "GET" "http://localhost:7861/api/consent/bob"] ∧
    (callsSince localSession (acceptConsent localEnv exampleTick (PostOutcome.status 200)
      localSession)).filter isFetch = [Call.fetch "POST" "http://localhost:7861/api/consent"] ∧
    (callsSince localSession (submitSurvey localEnv
      (attemptWith (SurveyResponse.response 200 none)) 0 localSession)).filter isFetch =
      [Call.fetch "POST" "http://localhost:7861/api/survey"] ∧
    "http://localhost:7861/api/consent" ≠ localSession.BACKEND_AUTH_API ++ "/consent" ∧
    "http://localhost:7861/api/survey" ≠ localSession.BACKEND_AUTH_API ++ "/survey" ∧
    "http://localhost:7861/api/consent/bob" ≠
      localSession.BACKEND_AUTH_API ++ "/consent/" ++ localEnv.encodeURIComponent "bob" := by
  decide

/-- C15, as amended: for every configuration source combination the base of a freshly
loaded page is the resolved endpoint, and for a logged-in user the consent read, the
consent write (on accept and on decline) and the survey submission each make exactly
one request. On every host name other than localhost and 127.0.0.1 its URL is the
current base followed by '/consent/' and the encoded user id, by '/consent', and by
'/survey'; on the hosts localhost and 127.0.0.1 it is http://localhost:7861/api followed
by the same path, whatever the base. -/
theorem request_urls_follow_base_off_local_hosts (env : Env) (tick : Tick)
    (resp : ConsentGet) (post : PostOutcome) (replaceThrows : Bool) (a : SurveyAttempt)
    (n : Nat) (s : AppState) (uid : String)
    (hUser : LoggedInAs s uid) (hComplete : a.isComplete = true) :
    (∀ ls dom, (initialState env ls dom).BACKEND_AUTH_API = getBackendApiUrl env ls) ∧
    (callsSince s (showApp env tick resp s)).filter isFetch =
      [Call.fetch "GET" (consentGetUrl env s uid)] ∧
    (callsSince s (acceptConsent env tick post s)).filter isFetch =
      [Call.fetch "POST" (consentPostUrl env s)] ∧
    (callsSince s (declineConsent env replaceThrows s)).filter isFetch =
      [Call.fetch "POST" (consentPostUrl env s)] ∧
    (callsSince s (submitSurvey env a n s)).filter isFetch =
      [Call.fetch "POST" (surveyUrl env s)] ∧
    (env.hostname ≠ "localhost" → env.hostname ≠ "127.0.0.1" →
      consentGetUrl env s uid =
        s.BACKEND_AUTH_API ++ "/consent/" ++ env.encodeURIComponent uid ∧
      consentPostUrl env s = s.BACKEND_AUTH_API ++ "/consent" ∧
      surveyUrl env s = s.BACKEND_AUTH_API ++ "/survey") ∧
    (env.hostname = "localhost" ∨ env.hostname = "127.0.0.1" →
      consentGetUrl env s uid =
        "http://localhost:7861/api" ++ "/consent/" ++ env.encodeURIComponent uid ∧
      consentPostUrl env s = "http://localhost:7861/api" ++ "/consent" ∧
      surveyUrl env s = "http://localhost:7861/api" ++ "/survey") := by
  have hS := hUser.sessionUserId
  have hT : truthy (storedUserId s) = true := by
    rw [hUser.storedUserId]; simp [truthy, hUser.1]
  refine ⟨fun _ _ => rfl, showApp_requests env tick resp s uid hUser,
    acceptConsent_requests env tick post s uid hS,
    declineConsent_requests env replaceThrows s uid hS,
    submitSurvey_requests env a n s hComplete hT, ?_, ?_⟩
  · intro h1 h2
    have hl : usesLocalApi env = false := by simp [usesLocalApi, h1, h2]
    simp [consentGetUrl, consentPostUrl, surveyUrl, hl]
  · intro h
    have hl : usesLocalApi env = true := by
      rcases h with h | h <;> simp [usesLocalApi, h]
    simp only [consentGetUrl, consentPostUrl, surveyUrl, hl, if_true]
    refine ⟨?_, ?_, ?_⟩
    · have e : "http://localhost:7861/api/consent/" = "http://localhost:7861/api" ++ "/consent/" := by
        decide
      rw [e]
    · rfl
    · rfl

/-- Witness of C15, as amended: user bob on a page served from example.org. -/
theorem request_urls_follow_base_off_local_hosts_witness :
    surveyUrl exampleEnv (exampleSession "bob" []) =
      (exampleSession "bob" []).BACKEND_AUTH_API ++ "/survey" :=
  ((request_urls_follow_base_off_local_hosts exampleEnv exampleTick ConsentGet.transportError
    (PostOutcome.status 200) false (attemptWith (SurveyResponse.response 200 none)) 0
    (exampleSession "bob" []) "bob" (by decide) (by decide)).2.2.2.2.2.1
      (by decide) (by decide)).2.2

/-! ## The failure messages -/

theorem containsText_append_right (pre base : String) : containsText (pre ++ base) base := by
  unfold containsText
  rw [String.data_append]
  exact (List.suffix_append _ _).isInfix

theorem handleAuthSubmit_transport (env : Env) (tick : Tick) (consent : ConsentGet)
    (s : AppState) (h : passesLocalValidation s = true) :
    (handleAuthSubmit env tick AuthResponse.transportError consent s).dom.authError =
      "网络连接失败，请检查后端是否运行：\n" ++ s.BACKEND_AUTH_API := by
  obtain ⟨h3, h6, hMode⟩ := (passesLocalValidation_iff s).1 h
  have h3n : ¬ jsLength (jsTrim s.dom.authUsername) < 3 := by omega
  have h6n : ¬ jsLength s.dom.authPassword < 6 := by omega
  have hb : (clearAuthErrors s).BACKEND_AUTH_API = s.BACKEND_AUTH_API := rfl
  have hd1 : (clearAuthErrors s).dom.authUsername = s.dom.authUsername := rfl
  have hd2 : (clearAuthErrors s).dom.authPassword = s.dom.authPassword := rfl
  have hd3 : (clearAuthErrors s).dom.authConfirm = s.dom.authConfirm := rfl
  have hd4 : (clearAuthErrors s).isLoginMode = s.isLoginMode := rfl
  unfold handleAuthSubmit
  simp only [hb, hd1, hd2, hd3, hd4, h3n, h6n, if_false]
  cases hm : s.isLoginMode with
  | true => simp [handleAuthResponse, showAuthError, record, clearAuthErrors]
  | false =>
    have hp := hMode hm
    simp [hp, handleAuthResponse, showAuthError, record, clearAuthErrors]

set_option maxRecDepth 100000 in
/-- Counterexample to C16 as stated: user bob submits a complete survey from a page that
resolved the hosted endpoint. When the server answers with status 500 the alert holds
neither the request URL nor the base; when the third transport failure in a row has the
message Load failed, the alert holds neither of them either. -/
theorem survey_failure_alerts_without_endpoint :
    callsSince (exampleSession "bob" [])
      (submitSurvey exampleEnv (attemptWith (SurveyResponse.response 500 none)) 0
        (exampleSession "bob" [])) =
      [Call.fetch "POST" (surveyUrl exampleEnv (exampleSession "bob" [])),
        Call.alert (surveyStatusMessage 500)] ∧
    ¬ containsText (surveyStatusMessage 500) (surveyUrl exampleEnv (exampleSession "bob" [])) ∧
    ¬ containsText (surveyStatusMessage 500) (exampleSession "bob" []).BACKEND_AUTH_API ∧
    callsSince (exampleSession "bob" [])
      (submitSurvey exampleEnv (attemptWith (SurveyResponse.transportError "Load failed")) 2
        (exampleSession "bob" [])) =
      [Call.fetch "POST" (surveyUrl exampleEnv (exampleSession "bob" [])),
        Call.alert "网络连接失败\n\nLoad failed"] ∧
    ¬ containsText "网络连接失败\n\nLoad failed"
      (surveyUrl exampleEnv (exampleSession "bob" [])) ∧
    ¬ containsText "网络连接失败\n\nLoad failed" (exampleSession "bob" []).BACKEND_AUTH_API := by
  decide

/-- C16, as amended: the login and registration message for a transport failure is a
fixed text followed by the resolved base URL, not the request URL. The survey alert
after exhausted transport retries ends with the base URL when the message of the error
contains 'Failed to fetch', and otherwise is the fixed heading followed by the message
of the error. The survey alert for a non-retryable or exhausted error status is a fixed
text that carries the status code. -/
theorem failure_messages_and_endpoint (env : Env) (tick : Tick) (consent : ConsentGet)
    (a : SurveyAttempt) (n : Nat) (s : AppState)
    (hComplete : a.isComplete = true) (hUser : truthy (storedUserId s) = true) :
    (passesLocalValidation s = true →
      (handleAuthSubmit env tick AuthResponse.transportError consent s).dom.authError =
        "网络连接失败，请检查后端是否运行：\n" ++ s.BACKEND_AUTH_API ∧
      containsText (handleAuthSubmit env tick AuthResponse.transportError consent
        s).dom.authError s.BACKEND_AUTH_API) ∧
    (∀ message, a.response = SurveyResponse.transportError message → 2 ≤ n →
      callsSince s (submitSurvey env a n s) =
        [Call.fetch "POST" (surveyUrl env s), Call.alert (surveyErrorMessage s message)] ∧
      (jsIncludes message "Failed to fetch" = true →
        containsText (surveyErrorMessage s message) s.BACKEND_AUTH_API) ∧
      (jsIncludes message "Failed to fetch" = false →
        surveyErrorMessage s message = "网络连接失败\n\n" ++ message)) ∧
    (∀ status jsonError, a.response = SurveyResponse.response status jsonError →
      ¬ (200 ≤ status ∧ status ≤ 299) →
      ¬ ((status = 503 ∨ status = 502 ∨ status = 504) ∧ n < 3) →
      callsSince s (submitSurvey env a n s) =
        [Call.fetch "POST" (surveyUrl env s), Call.alert (surveyStatusMessage status)]) := by
  refine ⟨?_, ?_, ?_⟩
  · intro hv
    have h := handleAuthSubmit_transport env tick consent s hv
    rw [h]
    exact ⟨rfl, containsText_append_right _ _⟩
  · intro message hr hn
    have hn2 : ¬ n < 2 := by omega
    refine ⟨?_, ?_, ?_⟩
    · rw [(submitSurvey_transport env a n s message hComplete hUser hr).2 hn2]
      simp [callsSince, record]
    · intro hi
      unfold surveyErrorMessage
      simp only [hi, if_true]
      exact containsText_append_right _ _
    · intro hi
      unfold surveyErrorMessage
      simp [hi]
  · intro status jsonError hr hok hretry
    rw [submitSurvey_sent env a n s hComplete hUser, hr]
    simp only [hok, hretry, if_false]
    simp [callsSince]

/-- Witness of C16, as amended: on a page with a session of user bob a login fails in
transport. -/
theorem failure_messages_and_endpoint_witness :
    containsText (handleAuthSubmit exampleEnv exampleTick AuthResponse.transportError
      ConsentGet.transportError sessionFormFilled).dom.authError
      sessionFormFilled.BACKEND_AUTH_API :=
  ((failure_messages_and_endpoint exampleEnv exampleTick ConsentGet.transportError
    (attemptWith (SurveyResponse.response 500 none)) 0 sessionFormFilled
    (by decide) (by decide)).1 (by decide)).2

/-! ## Logout -/

/-- C17, evaluated on every state: after a confirmed logout the three session keys are
absent and the in-memory session is null, an unconfirmed logout changes nothing, but
the mode toggle is not reset to login mode: `logout` sets `isLoginMode` to true and then
calls `toggleAuthMode`, which flips it, so `isLoginMode` is false after every confirmed
logout. -/
theorem logout_leaves_register_mode (s : AppState) :
    getItem (logout true s).localStorage "token" = none ∧
    getItem (logout true s).localStorage "userId" = none ∧
    getItem (logout true s).localStorage "userName" = none ∧
    (logout true s).currentUser = none ∧
    logout false s = s ∧
    (logout true s).isLoginMode = false := by
  have hls : (logout true s).localStorage =
      removeItem (removeItem (removeItem s.localStorage "token") "userId") "userName" := rfl
  refine ⟨?_, ?_, ?_, rfl, rfl, rfl⟩
  · rw [hls, getItem_removeItem_ne _ _ _ (by decide), getItem_removeItem_ne _ _ _ (by decide),
      getItem_removeItem_same]
  · rw [hls, getItem_removeItem_ne _ _ _ (by decide), getItem_removeItem_same]
  · rw [hls, getItem_removeItem_same]

end GriefCompanion
